import Mathlib

/-! # Deye micro-inverter protocol layer (`src/main.cpp`)

A shallow embedding of the protocol core of `main.cpp`: the reflected CRC-16 of `crc.h`,
the request frame assembled in `main`, the response validator and decoder
`DeyeMicroInvModbusRegs::fromResponse`, and the register accessors.

Conventions of the embedding.

* A byte buffer (`const uint8_t *`) is a `List Nat` holding the bytes that exist behind the
  pointer; a read at an index outside the list is a read outside the buffer and makes the
  embedded function return `none`.
* `uint8_t`, `uint16_t` and `uint32_t` values are natural numbers, reduced modulo `2^8`,
  `2^16`, `2^32` wherever the C++ arithmetic can wrap.
* A `double` is an IEEE-754 binary64 number, given by its exact value in `ℚ`. A product of
  two doubles is the exact product rounded to the nearest binary64 number, ties to even
  (`roundBinary64`, `fmul`); the literals `0.1` and `0.01` are the binary64 numbers nearest
  to 1/10 and 1/100. An `unsigned int` converts to `double` without rounding.
* Multi-byte integers copied with `memcpy` are little-endian, as on the hosts the program
  is built for.
-/

namespace Deye

/-! ## CRC engine (`crc.h`) -/

/-- Modelled from the spec: `crc.h` is not part of the sources. One bit step of the reflected
CRC-16 with polynomial `0xA001` (spec 4.1, standard Modbus): the value is shifted right by one
and the polynomial is XOR-ed in when the bit shifted out was set. -/
def crc16_shift (crc : Nat) : Nat :=
  if crc &&& 1 = 1 then (crc >>> 1) ^^^ 0xA001 else crc >>> 1

/-- Modelled from the spec: `crc.h` is not part of the sources. One byte step of the CRC
(spec 4.1): the byte is XOR-ed into the running value, followed by eight bit steps. -/
def crc16_update (crc byte : Nat) : Nat :=
  Nat.iterate crc16_shift 8 (crc ^^^ byte)

/-- Modelled from the spec: `crc.h` (declaring `crc_calc_crc16_reflected(seed, data, len)`) is
not part of the sources. The reflected CRC-16 of spec 4.1, `crc16(seed, data)`: bytes are
processed one at a time, the running value starts at `seed`. The pointer/length pair of the
C signature is the list `data`. -/
def crc_calc_crc16_reflected (seed : Nat) (data : List Nat) : Nat :=
  data.foldl crc16_update seed

/-! ## Buffers and wrapped arithmetic -/

/-- Difference `a - b` of two `uint32_t` values, as computed by the machine (wraps). -/
@[irreducible]
def sub32 (a b : Nat) : Nat := (a + 2 ^ 32 - b) % 2 ^ 32

/-- The `len` bytes `data[off] .. data[off + len - 1]`, or `none` when that range is not
inside the buffer. -/
def slice (data : List Nat) (off len : Nat) : Option (List Nat) :=
  if off + len ≤ data.length then some ((data.drop off).take len) else none

/-- The loop `uint8_t sum = 0; for (...) sum += b;` over the bytes `bs`. -/
def sumBytes (bs : List Nat) : Nat :=
  bs.foldl (fun sum b => (sum + b) % 256) 0

/-- The unsigned integer whose little-endian bytes are `bs` (a `memcpy` into an integer). -/
def le32 (bs : List Nat) : Nat :=
  bs.foldr (fun b acc => b + 256 * acc) 0

/-- The effect of `memcpy(dst, src, src.length)` on the byte area `dst` of an object: the
bytes of `src` replace the leading bytes of `dst`. Bytes written past the end of `dst` land
outside the area and are not part of the result. -/
def memcpyInto (dst src : List Nat) : List Nat :=
  src.take dst.length ++ dst.drop src.length

/-! ## The register object -/

/-- The class `DeyeMicroInvModbusRegs`: three `uint32_t` members and the 116 bytes of the
register members `_status` .. `_pv4Current01A` (registers 59 .. 116), kept as one byte area
`regs` in declaration order. -/
structure DeyeMicroInvModbusRegs where
  serialNumber : Nat
  totalOperatingSeconds : Nat
  dayOperatingSeconds : Nat
  regs : List Nat
deriving DecidableEq

/-- Size in bytes of the register members `_status` .. `_pv4Current01A`. -/
def regsSize : Nat := 116

/-- The method `DeyeMicroInvModbusRegs::fromResponse(data, length)`. The result is `none` when
a read leaves the buffer, otherwise the returned `bool` and the object after the call. -/
def fromResponse (self : DeyeMicroInvModbusRegs) (data : List Nat) (length : Nat) :
    Option (Bool × DeyeMicroInvModbusRegs) :=
  -- test for start byte
  data[0]?.bind fun start =>
  if start ≠ 0xA5 then some (false, self) else
  -- verify sum byte
  (slice data 1 (sub32 length 2 - 1)).bind fun summed =>
  data[sub32 length 2]?.bind fun sumByte =>
  if sumBytes summed ≠ sumByte then some (false, self) else
  -- verify modbus crc
  data[27]?.bind fun count =>
  (slice data 25 (3 + count + 2)).bind fun frame =>
  if crc_calc_crc16_reflected 0xFFFF frame ≠ 0 then some (false, self) else
  -- test for end byte
  data[sub32 length 1]?.bind fun stop =>
  if stop ≠ 0x15 then some (false, self) else
  -- on success
  (slice data 7 4).bind fun sn =>
  (slice data 13 8).bind fun optime =>
  (slice data 28 count).bind fun payload =>
  some (true,
    { serialNumber := le32 sn
      totalOperatingSeconds := le32 (optime.take 4)
      dayOperatingSeconds := le32 (optime.drop 4)
      regs := memcpyInto (List.replicate regsSize 0) payload })

/-- The array `response` of `main.cpp` (the dummy response of `USE_DUMMY_RESPONSE`). -/
def response : List Nat :=
  [0xa5, 0x87, 0x00, 0x10, 0x15, 0x00, 0x8d, 0xf4, 0x52, 0xfe, 0xea, 0x02,
   0x01, 0x8a, 0x57, 0x3e, 0x00, 0xb0, 0x28, 0x00, 0x00, 0xb7, 0xb7, 0x45,
   0x65, 0x01, 0x03, 0x74, 0x00, 0x04, 0x00, 0x00, 0x00, 0x00, 0x00, 0x00,
   0x08, 0x99, 0x00, 0x00, 0x00, 0x00, 0x00, 0x00, 0x00, 0x00, 0x00, 0x00,
   0x04, 0x62, 0x00, 0x00, 0x03, 0xf6, 0x00, 0x00, 0x09, 0x2e, 0x00, 0x00,
   0x00, 0x00, 0x00, 0x01, 0x00, 0x00, 0x00, 0x00, 0x13, 0x88, 0x00, 0x00,
   0x00, 0x00, 0x00, 0x00, 0x00, 0x00, 0x00, 0x00, 0x00, 0x00, 0x01, 0x40,
   0x00, 0x00, 0x00, 0x00, 0x00, 0x00, 0x08, 0x3e, 0x00, 0x00, 0x00, 0x00,
   0x00, 0x00, 0x00, 0x00, 0x00, 0x00, 0x00, 0x00, 0x00, 0x00, 0x00, 0x00,
   0x00, 0x00, 0x00, 0x00, 0x00, 0x00, 0x00, 0x00, 0x00, 0x00, 0x00, 0x00,
   0x00, 0x00, 0x00, 0x00, 0x00, 0x00, 0x00, 0x00, 0x01, 0x0e, 0x00, 0x05,
   0x01, 0x0f, 0x00, 0x05, 0x00, 0x00, 0x00, 0x00, 0x00, 0x00, 0x00, 0x00,
   0x3e, 0x45, 0xfb, 0x15]

/-- An object before any call of `fromResponse` (all members zero). -/
def zeroRegs : DeyeMicroInvModbusRegs :=
  { serialNumber := 0, totalOperatingSeconds := 0, dayOperatingSeconds := 0,
    regs := List.replicate regsSize 0 }

/-! ## Register members

Each register member is a `uint8_t` array inside the register area; the constants below are
the byte offsets of the members from `_status`, in declaration order (the members are byte
arrays, laid out without gaps, which is what `fromResponse` relies on when it copies the
payload to `_status`). -/

def _status : Nat := 0
def _dayEnergy01kWh : Nat := 2
def _res61 : Nat := 4
def _uptime1m : Nat := 6
def _totalEnergy01kWh : Nat := 8
def _pv1DayEnergy01kwh : Nat := 12
def _pv2DayEnergy01kwh : Nat := 14
def _pv3DayEnergy01kwh : Nat := 16
def _pv4DayEnergy01kwh : Nat := 18
def _pv1TotalEnergy01kwh : Nat := 20
def _pv2TotalEnergy01kwh : Nat := 24
def _acVoltage01V : Nat := 28
def _pv3TotalEnergy01kwh : Nat := 30
def _acCurrent01A : Nat := 34
def _pv4TotalEnergy01kwh : Nat := 36
def _acFrequency001Hz : Nat := 40
def _operatingPower1W : Nat := 42
def _res81_85 : Nat := 44
def _acPower1W : Nat := 54
def _res88_89 : Nat := 58
def _radiatorTemperature001C : Nat := 62
def _res91_108 : Nat := 64
def _pv1Voltage01V : Nat := 100
def _pv1Current01A : Nat := 102
def _pv2Voltage01V : Nat := 104
def _pv2Current01A : Nat := 106
def _pv3Voltage01V : Nat := 108
def _pv3Current01A : Nat := 110
def _pv4Voltage01V : Nat := 112
def _pv4Current01A : Nat := 114

/-! ## Doubles

The accessors of the class return `double`. The model below follows IEEE-754 binary64 with
the default rounding (to nearest, ties to even) on non-negative values; exponent overflow and
underflow are not modelled (every value here lies between `2^-7` and `2^64`). -/

/-- Binary logarithm with fuel: `log2Fuel fuel n` is the position of the leading bit of `n`
when `n <= fuel`. -/
def log2Fuel : Nat → Nat → Nat
  | 0, _ => 0
  | fuel + 1, n => if 2 ≤ n then log2Fuel fuel (n / 2) + 1 else 0

/-- The position of the leading bit of `n`: `2 ^ ilog2 n <= n < 2 ^ (ilog2 n + 1)` for
`n > 0`. -/
def ilog2 (n : Nat) : Nat := log2Fuel n n

/-- The binary64 number nearest to the non-negative rational `x = n / d`, ties to even
(0 for `x <= 0`). The value is scaled by a power of two, `N / D = x * 2^a * c / 2^b`, so that
`2^52 <= N / D < 2^53`; the quotient is rounded to an integer `q'` (up when the remainder is
more than half of `D`, or exactly half with `q` odd); the result is `q'` scaled back. -/
def roundBinary64 (x : ℚ) : ℚ :=
  let n := x.num.toNat
  let d := x.den
  if n = 0 then 0 else
    let a := 52 + ilog2 d - ilog2 n
    let b := ilog2 n - (52 + ilog2 d)
    let c := if 2 ^ 52 * (d * 2 ^ b) ≤ n * 2 ^ a then 1 else 2
    let N := n * 2 ^ a * c
    let D := d * 2 ^ b
    let q := N / D
    let r := N % D
    let q' := if D < 2 * r ∨ (2 * r = D ∧ q % 2 = 1) then q + 1 else q
    ((q' * 2 ^ b : ℕ) : ℚ) / ((2 ^ a * c : ℕ) : ℚ)

/-- The `double` literal `0.1`: the binary64 number `0x3FB999999999999A`. -/
def double_0_1 : ℚ := 3602879701896397 / 2 ^ 55

/-- The `double` literal `0.01`: the binary64 number `0x3F847AE147AE147B`. -/
def double_0_01 : ℚ := 5764607523034235 / 2 ^ 59

/-- The product `a * b` of two `double` values. -/
def fmul (a b : ℚ) : ℚ := roundBinary64 (a * b)

namespace DeyeMicroInvModbusRegs

/-- The byte `member[i]` of the register member at offset `member` (a read past the register
area, which no accessor performs for `pv < 4`, yields 0). -/
def byte (self : DeyeMicroInvModbusRegs) (member i : Nat) : Nat :=
  self.regs.getD (member + i) 0

/-- Method `status()`. -/
def status (self : DeyeMicroInvModbusRegs) : Nat :=
  self.byte _status 1

/-- Method `uptime()`. -/
def uptime (self : DeyeMicroInvModbusRegs) : Nat :=
  (self.byte _uptime1m 0 <<< 8) ||| self.byte _uptime1m 1

/-- The local `val` of `temperature()`: the big-endian value of `_radiatorTemperature001C`. -/
def temperature_val (self : DeyeMicroInvModbusRegs) : Nat :=
  (self.byte _radiatorTemperature001C 0 <<< 8) ||| self.byte _radiatorTemperature001C 1

/-- Method `temperature()`: the `double` product `0.01 * val`. -/
def temperature (self : DeyeMicroInvModbusRegs) : ℚ :=
  fmul double_0_01 self.temperature_val

/-- Method `operatingPower()`. -/
def operatingPower (self : DeyeMicroInvModbusRegs) : Nat :=
  (self.byte _operatingPower1W 0 <<< 8) ||| self.byte _operatingPower1W 1

/-- The local `val` of `acVoltage()`: the big-endian value of `_acVoltage01V`. -/
def acVoltage_val (self : DeyeMicroInvModbusRegs) : Nat :=
  (self.byte _acVoltage01V 0 <<< 8) ||| self.byte _acVoltage01V 1

/-- Method `acVoltage()`: the `double` product `0.1 * val`. -/
def acVoltage (self : DeyeMicroInvModbusRegs) : ℚ :=
  fmul double_0_1 self.acVoltage_val

/-- The local `val` of `acCurrent()`: the big-endian value of `_acCurrent01A`. -/
def acCurrent_val (self : DeyeMicroInvModbusRegs) : Nat :=
  (self.byte _acCurrent01A 0 <<< 8) ||| self.byte _acCurrent01A 1

/-- Method `acCurrent()`: the `double` product `0.1 * val`. -/
def acCurrent (self : DeyeMicroInvModbusRegs) : ℚ :=
  fmul double_0_1 self.acCurrent_val

/-- Method `acPower()`. Its return type is `unsigned int`: the product `0.1 * val` is
converted to an integer by truncation, which for `val < 2^16` is `val / 10` rounded down. -/
def acPower (self : DeyeMicroInvModbusRegs) : Nat :=
  let val := (self.byte _acPower1W 0 <<< 8) ||| self.byte _acPower1W 1
  val / 10

/-- Method `acCalculatedPower()`: the `double` product of `acVoltage()` and `acCurrent()`. -/
def acCalculatedPower (self : DeyeMicroInvModbusRegs) : ℚ :=
  fmul self.acVoltage self.acCurrent

/-- The local `val` of `acFrequency()`: the big-endian value of `_acFrequency001Hz`. -/
def acFrequency_val (self : DeyeMicroInvModbusRegs) : Nat :=
  (self.byte _acFrequency001Hz 0 <<< 8) ||| self.byte _acFrequency001Hz 1

/-- Method `acFrequency()`: the `double` product `0.01 * val`. -/
def acFrequency (self : DeyeMicroInvModbusRegs) : ℚ :=
  fmul double_0_01 self.acFrequency_val

/-- The local `val` of `acDayEnergy()`: the big-endian value of `_dayEnergy01kWh`. -/
def acDayEnergy_val (self : DeyeMicroInvModbusRegs) : Nat :=
  (self.byte _dayEnergy01kWh 0 <<< 8) ||| self.byte _dayEnergy01kWh 1

/-- Method `acDayEnergy()`: the `double` product `0.1 * val`. -/
def acDayEnergy (self : DeyeMicroInvModbusRegs) : ℚ :=
  fmul double_0_1 self.acDayEnergy_val

/-- The local `val` of `acTotalEnergy()`: bytes 2 and 3 of `_totalEnergy01kWh` are the high
half, bytes 0 and 1 the low half. -/
def acTotalEnergy_val (self : DeyeMicroInvModbusRegs) : Nat :=
  (self.byte _totalEnergy01kWh 2 <<< 24) |||
  (self.byte _totalEnergy01kWh 3 <<< 16) |||
  (self.byte _totalEnergy01kWh 0 <<< 8) |||
  self.byte _totalEnergy01kWh 1

/-- Method `acTotalEnergy()`: the `double` product `0.1 * val`. -/
def acTotalEnergy (self : DeyeMicroInvModbusRegs) : ℚ :=
  fmul double_0_1 self.acTotalEnergy_val

/-- The local `val` of `pvDayEnergy(pv)`. -/
def pvDayEnergy_val (self : DeyeMicroInvModbusRegs) (pv : Nat) : Nat :=
  let d := _pv1DayEnergy01kwh + 2 * pv
  (self.byte d 0 <<< 8) ||| self.byte d 1

/-- Method `pvDayEnergy(pv)`: the `double` product `0.1 * val`. -/
def pvDayEnergy (self : DeyeMicroInvModbusRegs) (pv : Nat) : ℚ :=
  fmul double_0_1 (self.pvDayEnergy_val pv)

/-- The local `val` of `pvTotalEnergy(pv)`; `offset` is the local table of the method
(`pv < 4`). -/
def pvTotalEnergy_val (self : DeyeMicroInvModbusRegs) (pv : Nat) : Nat :=
  let offset : List Nat := [0, 4, 10, 16]
  let d := _pv1TotalEnergy01kwh + offset.getD pv 0
  (self.byte d 2 <<< 24) |||
  (self.byte d 3 <<< 16) |||
  (self.byte d 0 <<< 8) |||
  self.byte d 1

/-- Method `pvTotalEnergy(pv)`: the `double` product `0.1 * val`. -/
def pvTotalEnergy (self : DeyeMicroInvModbusRegs) (pv : Nat) : ℚ :=
  fmul double_0_1 (self.pvTotalEnergy_val pv)

/-- The local `val` of `pvVoltage(pv)`. -/
def pvVoltage_val (self : DeyeMicroInvModbusRegs) (pv : Nat) : Nat :=
  let d := _pv1Voltage01V + 4 * pv
  (self.byte d 0 <<< 8) ||| self.byte d 1

/-- Method `pvVoltage(pv)`: the `double` product `0.1 * val`. -/
def pvVoltage (self : DeyeMicroInvModbusRegs) (pv : Nat) : ℚ :=
  fmul double_0_1 (self.pvVoltage_val pv)

/-- The local `val` of `pvCurrent(pv)`. -/
def pvCurrent_val (self : DeyeMicroInvModbusRegs) (pv : Nat) : Nat :=
  let d := _pv1Current01A + 4 * pv
  (self.byte d 0 <<< 8) ||| self.byte d 1

/-- Method `pvCurrent(pv)`: the `double` product `0.1 * val`. -/
def pvCurrent (self : DeyeMicroInvModbusRegs) (pv : Nat) : ℚ :=
  fmul double_0_1 (self.pvCurrent_val pv)

/-- Method `pvPower(pv)`: the `double` product of `pvVoltage(pv)` and `pvCurrent(pv)`. -/
def pvPower (self : DeyeMicroInvModbusRegs) (pv : Nat) : ℚ :=
  fmul (self.pvVoltage pv) (self.pvCurrent pv)

end DeyeMicroInvModbusRegs

/-! ## The request frame (`main`) -/

/-- The initial contents of the array `requestTemplate` in `main`. -/
def requestTemplate : List Nat :=
  [0xa5,
   0x17, 0x00,
   0x10, 0x45,
   0x00, 0x00,
   0x00, 0x00, 0x00, 0x00,
   0x02, 0x00, 0x00, 0x00, 0x00, 0x00, 0x00, 0x00, 0x00, 0x00, 0x00, 0x00, 0x00, 0x00, 0x00,
   0x01,
   0x03,
   0x00, 0x3b,
   0x00, 0x3a,
   0xb4, 0x14,
   0x00,
   0x15]

/-- The four bytes of the `unsigned int` `x` in memory (little-endian). -/
def bytes32 (x : Nat) : List Nat :=
  [x % 256, (x >>> 8) % 256, (x >>> 16) % 256, (x >>> 24) % 256]

/-- The effect of `memcpy(&buf[off], src, src.length)` on the array `buf`. -/
def memcpyAt (buf : List Nat) (off : Nat) (src : List Nat) : List Nat :=
  buf.take off ++ memcpyInto (buf.drop off) src

/-- The request block of `main`: the contents of `requestTemplate` when it is sent, for the
serial number `serialNumber` given on the command line. -/
def mainRequest (serialNumber : Nat) : List Nat :=
  -- set serial number
  let t1 := memcpyAt requestTemplate 7 (bytes32 serialNumber)
  -- calculate modbus checksum
  let crc := crc_calc_crc16_reflected 0xFFFF ((t1.drop 26).take 6)
  let t2 := (t1.set 32 (crc % 256)).set 33 ((crc >>> 8) % 256)
  -- calculate checksum
  let sum := sumBytes ((t2.drop 1).take 33)
  t2.set 34 sum

/-! ## Responses used as concrete inputs -/

/-- Byte `k` of the register payload carried by the response `data` (the `data[27]` bytes from
offset 28 on), and 0 where the payload has no byte `k`. -/
def payloadByte (data : List Nat) (k : Nat) : Nat :=
  if k < data.getD 27 0 then data.getD (28 + k) 0 else 0

/-- A response that carries 57 registers (114 payload bytes), the frame the disabled length
test of `fromResponse` describes: the bytes of `response` with the length field `0x85`, the
payload cut after register 115, and the CRC and the sum byte computed for it. 146 bytes. -/
def response57 : List Nat :=
  [0xa5, 0x85, 0x00, 0x10, 0x15, 0x00, 0x8d, 0xf4, 0x52, 0xfe, 0xea, 0x02,
   0x01, 0x8a, 0x57, 0x3e, 0x00, 0xb0, 0x28, 0x00, 0x00, 0xb7, 0xb7, 0x45,
   0x65, 0x01, 0x03, 0x72, 0x00, 0x04, 0x00, 0x00, 0x00, 0x00, 0x00, 0x00,
   0x08, 0x99, 0x00, 0x00, 0x00, 0x00, 0x00, 0x00, 0x00, 0x00, 0x00, 0x00,
   0x04, 0x62, 0x00, 0x00, 0x03, 0xf6, 0x00, 0x00, 0x09, 0x2e, 0x00, 0x00,
   0x00, 0x00, 0x00, 0x01, 0x00, 0x00, 0x00, 0x00, 0x13, 0x88, 0x00, 0x00,
   0x00, 0x00, 0x00, 0x00, 0x00, 0x00, 0x00, 0x00, 0x00, 0x00, 0x01, 0x40,
   0x00, 0x00, 0x00, 0x00, 0x00, 0x00, 0x08, 0x3e, 0x00, 0x00, 0x00, 0x00,
   0x00, 0x00, 0x00, 0x00, 0x00, 0x00, 0x00, 0x00, 0x00, 0x00, 0x00, 0x00,
   0x00, 0x00, 0x00, 0x00, 0x00, 0x00, 0x00, 0x00, 0x00, 0x00, 0x00, 0x00,
   0x00, 0x00, 0x00, 0x00, 0x00, 0x00, 0x00, 0x00, 0x01, 0x0e, 0x00, 0x05,
   0x01, 0x0f, 0x00, 0x05, 0x00, 0x00, 0x00, 0x00, 0x00, 0x00, 0xb6, 0x6d,
   0x97, 0x15]

/-- The bytes of `response` with `00 08 00 99` at payload offsets 8..11 (registers 63-64), and
the CRC and the sum byte computed for it. -/
def responseEnergy : List Nat :=
  [0xa5, 0x87, 0x00, 0x10, 0x15, 0x00, 0x8d, 0xf4, 0x52, 0xfe, 0xea, 0x02,
   0x01, 0x8a, 0x57, 0x3e, 0x00, 0xb0, 0x28, 0x00, 0x00, 0xb7, 0xb7, 0x45,
   0x65, 0x01, 0x03, 0x74, 0x00, 0x04, 0x00, 0x00, 0x00, 0x00, 0x00, 0x00,
   0x00, 0x08, 0x00, 0x99, 0x00, 0x00, 0x00, 0x00, 0x00, 0x00, 0x00, 0x00,
   0x04, 0x62, 0x00, 0x00, 0x03, 0xf6, 0x00, 0x00, 0x09, 0x2e, 0x00, 0x00,
   0x00, 0x00, 0x00, 0x01, 0x00, 0x00, 0x00, 0x00, 0x13, 0x88, 0x00, 0x00,
   0x00, 0x00, 0x00, 0x00, 0x00, 0x00, 0x00, 0x00, 0x00, 0x00, 0x01, 0x40,
   0x00, 0x00, 0x00, 0x00, 0x00, 0x00, 0x08, 0x3e, 0x00, 0x00, 0x00, 0x00,
   0x00, 0x00, 0x00, 0x00, 0x00, 0x00, 0x00, 0x00, 0x00, 0x00, 0x00, 0x00,
   0x00, 0x00, 0x00, 0x00, 0x00, 0x00, 0x00, 0x00, 0x00, 0x00, 0x00, 0x00,
   0x00, 0x00, 0x00, 0x00, 0x00, 0x00, 0x00, 0x00, 0x01, 0x0e, 0x00, 0x05,
   0x01, 0x0f, 0x00, 0x05, 0x00, 0x00, 0x00, 0x00, 0x00, 0x00, 0x00, 0x00,
   0xee, 0x55, 0xbb, 0x15]

/-- The bytes of `response` with `09 64` at payload offsets 28..29 (register 73, the member
`_acVoltage01V`), and the CRC and the sum byte computed for it. -/
def response240V : List Nat :=
  [0xa5, 0x87, 0x00, 0x10, 0x15, 0x00, 0x8d, 0xf4, 0x52, 0xfe, 0xea, 0x02,
   0x01, 0x8a, 0x57, 0x3e, 0x00, 0xb0, 0x28, 0x00, 0x00, 0xb7, 0xb7, 0x45,
   0x65, 0x01, 0x03, 0x74, 0x00, 0x04, 0x00, 0x00, 0x00, 0x00, 0x00, 0x00,
   0x08, 0x99, 0x00, 0x00, 0x00, 0x00, 0x00, 0x00, 0x00, 0x00, 0x00, 0x00,
   0x04, 0x62, 0x00, 0x00, 0x03, 0xf6, 0x00, 0x00, 0x09, 0x64, 0x00, 0x00,
   0x00, 0x00, 0x00, 0x01, 0x00, 0x00, 0x00, 0x00, 0x13, 0x88, 0x00, 0x00,
   0x00, 0x00, 0x00, 0x00, 0x00, 0x00, 0x00, 0x00, 0x00, 0x00, 0x01, 0x40,
   0x00, 0x00, 0x00, 0x00, 0x00, 0x00, 0x08, 0x3e, 0x00, 0x00, 0x00, 0x00,
   0x00, 0x00, 0x00, 0x00, 0x00, 0x00, 0x00, 0x00, 0x00, 0x00, 0x00, 0x00,
   0x00, 0x00, 0x00, 0x00, 0x00, 0x00, 0x00, 0x00, 0x00, 0x00, 0x00, 0x00,
   0x00, 0x00, 0x00, 0x00, 0x00, 0x00, 0x00, 0x00, 0x01, 0x0e, 0x00, 0x05,
   0x01, 0x0f, 0x00, 0x05, 0x00, 0x00, 0x00, 0x00, 0x00, 0x00, 0x00, 0x00,
   0x60, 0x49, 0x57, 0x15]

/-- A response that carries 59 registers (118 payload bytes): the bytes of `response` with the
length field `0x89`, the payload-length byte `0x76`, two more payload bytes `12 34` after
register 116, and the CRC and the sum byte computed for it. 150 bytes. -/
def response59 : List Nat :=
  [0xa5, 0x89, 0x00, 0x10, 0x15, 0x00, 0x8d, 0xf4, 0x52, 0xfe, 0xea, 0x02,
   0x01, 0x8a, 0x57, 0x3e, 0x00, 0xb0, 0x28, 0x00, 0x00, 0xb7, 0xb7, 0x45,
   0x65, 0x01, 0x03, 0x76, 0x00, 0x04, 0x00, 0x00, 0x00, 0x00, 0x00, 0x00,
   0x08, 0x99, 0x00, 0x00, 0x00, 0x00, 0x00, 0x00, 0x00, 0x00, 0x00, 0x00,
   0x04, 0x62, 0x00, 0x00, 0x03, 0xf6, 0x00, 0x00, 0x09, 0x2e, 0x00, 0x00,
   0x00, 0x00, 0x00, 0x01, 0x00, 0x00, 0x00, 0x00, 0x13, 0x88, 0x00, 0x00,
   0x00, 0x00, 0x00, 0x00, 0x00, 0x00, 0x00, 0x00, 0x00, 0x00, 0x01, 0x40,
   0x00, 0x00, 0x00, 0x00, 0x00, 0x00, 0x08, 0x3e, 0x00, 0x00, 0x00, 0x00,
   0x00, 0x00, 0x00, 0x00, 0x00, 0x00, 0x00, 0x00, 0x00, 0x00, 0x00, 0x00,
   0x00, 0x00, 0x00, 0x00, 0x00, 0x00, 0x00, 0x00, 0x00, 0x00, 0x00, 0x00,
   0x00, 0x00, 0x00, 0x00, 0x00, 0x00, 0x00, 0x00, 0x01, 0x0e, 0x00, 0x05,
   0x01, 0x0f, 0x00, 0x05, 0x00, 0x00, 0x00, 0x00, 0x00, 0x00, 0x00, 0x00,
   0x12, 0x34, 0xfe, 0xe6, 0xa6, 0x15]

/-- The bytes of `response` with `00 03` at payload offsets 28..29 (register 73, the member
`_acVoltage01V`), `00 03 00 03` at payload offsets 100..103 (registers 109 and 110, the
members `_pv1Voltage01V` and `_pv1Current01A`), and the CRC and the sum byte computed for it. -/
def responseRaw3 : List Nat :=
  [0xa5, 0x87, 0x00, 0x10, 0x15, 0x00, 0x8d, 0xf4, 0x52, 0xfe, 0xea, 0x02,
   0x01, 0x8a, 0x57, 0x3e, 0x00, 0xb0, 0x28, 0x00, 0x00, 0xb7, 0xb7, 0x45,
   0x65, 0x01, 0x03, 0x74, 0x00, 0x04, 0x00, 0x00, 0x00, 0x00, 0x00, 0x00,
   0x08, 0x99, 0x00, 0x00, 0x00, 0x00, 0x00, 0x00, 0x00, 0x00, 0x00, 0x00,
   0x04, 0x62, 0x00, 0x00, 0x03, 0xf6, 0x00, 0x00, 0x00, 0x03, 0x00, 0x00,
   0x00, 0x00, 0x00, 0x01, 0x00, 0x00, 0x00, 0x00, 0x13, 0x88, 0x00, 0x00,
   0x00, 0x00, 0x00, 0x00, 0x00, 0x00, 0x00, 0x00, 0x00, 0x00, 0x01, 0x40,
   0x00, 0x00, 0x00, 0x00, 0x00, 0x00, 0x08, 0x3e, 0x00, 0x00, 0x00, 0x00,
   0x00, 0x00, 0x00, 0x00, 0x00, 0x00, 0x00, 0x00, 0x00, 0x00, 0x00, 0x00,
   0x00, 0x00, 0x00, 0x00, 0x00, 0x00, 0x00, 0x00, 0x00, 0x00, 0x00, 0x00,
   0x00, 0x00, 0x00, 0x00, 0x00, 0x00, 0x00, 0x00, 0x00, 0x03, 0x00, 0x03,
   0x01, 0x0f, 0x00, 0x05, 0x00, 0x00, 0x00, 0x00, 0x00, 0x00, 0x00, 0x00,
   0x7a, 0x4f, 0xff, 0x15]

/-- An object that holds values from an earlier use (no member zero). -/
def usedRegs : DeyeMicroInvModbusRegs :=
  { serialNumber := 1, totalOperatingSeconds := 2, dayOperatingSeconds := 3,
    regs := List.replicate regsSize 0xFF }

/-! ## Duration helpers -/

/-- The `printf` conversion `%u`: the decimal digits of `n`. -/
def fmt_u (n : Nat) : List Char :=
  Nat.toDigits 10 n

/-- The `printf` conversion `%02u`: the decimal digits of `n`, padded on the left with `'0'`
to a width of at least 2. -/
def fmt_02u (n : Nat) : List Char :=
  List.replicate (2 - (Nat.toDigits 10 n).length) '0' ++ Nat.toDigits 10 n

/-- The numbers `secondsToHMS` passes to `sprintf`: `hours`, `minutes`, `seconds`. -/
def secondsToHMS_args (seconds : Nat) : Nat × Nat × Nat :=
  let hours := seconds / 3600
  let minutes := (seconds / 60) % 60
  let seconds := seconds % 60
  (hours, minutes, seconds)

/-- The function `secondsToHMS`: the text written by `sprintf(buffer, "%02u:%02u:%02u", ...)`
(without the terminating NUL). -/
def secondsToHMS (seconds : Nat) : String :=
  let (hours, minutes, seconds) := secondsToHMS_args seconds
  String.mk (fmt_02u hours ++ ':' :: fmt_02u minutes ++ ':' :: fmt_02u seconds)

/-- The numbers `secondsToDHMS` passes to `sprintf`: `days`, `hours`, `minutes`, `seconds`. -/
def secondsToDHMS_args (seconds : Nat) : Nat × Nat × Nat × Nat :=
  let days := (seconds / 3600) / 24
  let hours := (seconds / 3600) % 24
  let minutes := (seconds / 60) % 60
  let seconds := seconds % 60
  (days, hours, minutes, seconds)

/-- The function `secondsToDHMS`: the text written by
`sprintf(buffer, "%u Days, %u Hours, %u Minutes, %u Seconds", ...)` (without the terminating
NUL). -/
def secondsToDHMS (seconds : Nat) : String :=
  let (days, hours, minutes, seconds) := secondsToDHMS_args seconds
  String.mk (fmt_u days ++ " Days, ".toList ++ fmt_u hours ++ " Hours, ".toList ++
    fmt_u minutes ++ " Minutes, ".toList ++ fmt_u seconds ++ " Seconds".toList)

/-! ## Lemmas on the CRC engine -/

theorem crc16_shift_two_mul (k : Nat) : crc16_shift (2 * k) = k := by
  simp [crc16_shift, Nat.and_one_is_mod, Nat.shiftRight_eq_div_pow]

theorem crc16_shift_zero : crc16_shift 0 = 0 := crc16_shift_two_mul 0

theorem iterate_crc16_shift_mul_256 (h : Nat) : Nat.iterate crc16_shift 8 (h * 256) = h := by
  have e : h * 256 = 2 * (2 * (2 * (2 * (2 * (2 * (2 * (2 * h))))))) := by omega
  rw [e]
  simp [Function.iterate_succ, crc16_shift_two_mul]

theorem xor_low_byte (c : Nat) : c ^^^ (c % 256) = c / 256 * 256 := by
  apply Nat.eq_of_testBit_eq
  intro i
  have e : (256 : Nat) = 2 ^ 8 := by norm_num
  rw [e, Nat.testBit_xor, Nat.testBit_mod_two_pow, Nat.mul_comm, Nat.testBit_mul_pow_two,
    ← Nat.shiftRight_eq_div_pow, Nat.testBit_shiftRight]
  by_cases hi : i < 8
  · simp [hi, Nat.not_le.mpr hi]
  · have hi8 : 8 ≤ i := Nat.le_of_not_lt hi
    simp [hi, hi8, Nat.add_sub_cancel' hi8]

theorem crc16_update_low_byte (c : Nat) : crc16_update c (c % 256) = c / 256 := by
  rw [crc16_update, xor_low_byte, iterate_crc16_shift_mul_256]

theorem crc16_update_self (c : Nat) : crc16_update c c = 0 := by
  simp [crc16_update, Function.iterate_succ, crc16_shift_zero]

theorem crc_append (seed : Nat) (d e : List Nat) :
    crc_calc_crc16_reflected seed (d ++ e) =
      crc_calc_crc16_reflected (crc_calc_crc16_reflected seed d) e := by
  simp [crc_calc_crc16_reflected, List.foldl_append]

theorem crc_own_bytes (c : Nat) : crc_calc_crc16_reflected c [c % 256, c / 256] = 0 := by
  simp [crc_calc_crc16_reflected, crc16_update_low_byte, crc16_update_self]

/-! ## Lemmas on buffers -/

theorem sub32_of_le {a b : Nat} (hb : b ≤ a) (ha : a < 2 ^ 32) : sub32 a b = a - b := by
  unfold sub32
  omega

theorem getElem?_eq_some_getD {data : List Nat} {i : Nat} (h : i < data.length) :
    data[i]? = some (data.getD i 0) := by
  simp [List.getD_eq_getElem?_getD, List.getElem?_eq_getElem h]

theorem slice_eq_some {data : List Nat} {off len : Nat} (h : off + len ≤ data.length) :
    slice data off len = some ((data.drop off).take len) := by
  simp [slice, h]

theorem slice_eq_some_iff {data bs : List Nat} {off len : Nat} :
    slice data off len = some bs ↔ off + len ≤ data.length ∧ bs = (data.drop off).take len := by
  unfold slice
  split_ifs with h
  · simp [h, eq_comm]
  · simp [h]

theorem foldl_sum_mod (bs : List Nat) :
    ∀ s, s < 256 → bs.foldl (fun sum b => (sum + b) % 256) s = (s + bs.sum) % 256 := by
  induction bs with
  | nil => intro s hs; simp [Nat.mod_eq_of_lt hs]
  | cons b bs ih =>
    intro s _
    rw [List.foldl_cons, ih _ (Nat.mod_lt _ (by norm_num)), List.sum_cons]
    omega

theorem sumBytes_eq (bs : List Nat) : sumBytes bs = bs.sum % 256 := by
  rw [sumBytes, foldl_sum_mod bs 0 (by norm_num), Nat.zero_add]

theorem take_set_of_le (l : List Nat) :
    ∀ (i k v : Nat), k ≤ i → (l.set i v).take k = l.take k := by
  induction l with
  | nil => intro i k v _; rfl
  | cons a t ih =>
    intro i k v h
    cases k with
    | zero => rfl
    | succ k =>
      cases i with
      | zero => omega
      | succ i =>
        rw [List.set_cons_succ, List.take_succ_cons, List.take_succ_cons, ih i k v (by omega)]

theorem sum_take_set (l : List Nat) :
    ∀ (i k v : Nat), i < k → i < l.length →
      ((l.set i v).take k).sum + l.getD i 0 = (l.take k).sum + v := by
  induction l with
  | nil => intro i k v _ hl; simp at hl
  | cons a t ih =>
    intro i k v hk hl
    cases k with
    | zero => omega
    | succ k =>
      cases i with
      | zero =>
        rw [List.set_cons_zero, List.take_succ_cons, List.take_succ_cons, List.sum_cons,
          List.sum_cons, List.getD_cons_zero]
        omega
      | succ i =>
        have hl2 : i < t.length := by
          rw [List.length_cons] at hl
          omega
        have h := ih i k v (by omega) hl2
        rw [List.set_cons_succ, List.take_succ_cons, List.take_succ_cons, List.sum_cons,
          List.sum_cons, List.getD_cons_succ]
        omega

theorem getD_set_self (l : List Nat) :
    ∀ (i v : Nat), i < l.length → (l.set i v).getD i 0 = v := by
  induction l with
  | nil => intro i v hl; simp at hl
  | cons a t ih =>
    intro i v hl
    cases i with
    | zero => rfl
    | succ i =>
      rw [List.set_cons_succ, List.getD_cons_succ]
      exact ih i v (by rw [List.length_cons] at hl; omega)

theorem getD_set_ne (l : List Nat) :
    ∀ (i j v : Nat), i ≠ j → (l.set i v).getD j 0 = l.getD j 0 := by
  induction l with
  | nil => intro i j v _; rfl
  | cons a t ih =>
    intro i j v hij
    cases i with
    | zero =>
      cases j with
      | zero => omega
      | succ j => rfl
    | succ i =>
      cases j with
      | zero => rfl
      | succ j =>
        rw [List.set_cons_succ, List.getD_cons_succ, List.getD_cons_succ]
        exact ih i j v (by omega)

theorem getD_lt_of_bytes {data : List Nat} (hb : ∀ b ∈ data, b < 256) {i : Nat}
    (hi : i < data.length) : data.getD i 0 < 256 := by
  have e := getElem?_eq_some_getD hi
  exact hb _ (List.getElem?_mem e)

/-! ## Lemmas on `fromResponse` -/

/-- What a `true` result of `fromResponse` says about the buffer and the object. -/
theorem fromResponse_true_inv {self obj : DeyeMicroInvModbusRegs} {data : List Nat} {n : Nat}
    (h : fromResponse self data n = some (true, obj)) :
    data[0]? = some 0xA5 ∧
    sub32 n 2 < data.length ∧ sub32 n 1 < data.length ∧
    1 + (sub32 n 2 - 1) ≤ data.length ∧
    30 + data.getD 27 0 ≤ data.length ∧
    sumBytes ((data.drop 1).take (sub32 n 2 - 1)) = data.getD (sub32 n 2) 0 ∧
    crc_calc_crc16_reflected 0xFFFF ((data.drop 25).take (3 + data.getD 27 0 + 2)) = 0 ∧
    data.getD (sub32 n 1) 0 = 0x15 ∧
    obj =
      { serialNumber := le32 ((data.drop 7).take 4)
        totalOperatingSeconds := le32 (((data.drop 13).take 8).take 4)
        dayOperatingSeconds := le32 (((data.drop 13).take 8).drop 4)
        regs := memcpyInto (List.replicate regsSize 0) ((data.drop 28).take (data.getD 27 0)) } := by
  have nope : ∀ o : DeyeMicroInvModbusRegs, some (false, o) ≠ some (true, obj) := by
    intro o ho
    cases ho
  unfold fromResponse at h
  obtain ⟨start, h0, g⟩ := Option.bind_eq_some.mp h
  clear h
  by_cases hs : start ≠ 0xA5
  · rw [if_pos hs] at g
    exact absurd g (nope _)
  rw [if_neg hs] at g
  obtain ⟨summed, h1, g1⟩ := Option.bind_eq_some.mp g
  clear g
  obtain ⟨sumByte, h2, g⟩ := Option.bind_eq_some.mp g1
  clear g1
  by_cases hsum : sumBytes summed ≠ sumByte
  · rw [if_pos hsum] at g
    exact absurd g (nope _)
  rw [if_neg hsum] at g
  obtain ⟨count, h27, g1⟩ := Option.bind_eq_some.mp g
  clear g
  obtain ⟨frame, h3, g⟩ := Option.bind_eq_some.mp g1
  clear g1
  by_cases hcrc : crc_calc_crc16_reflected 0xFFFF frame ≠ 0
  · rw [if_pos hcrc] at g
    exact absurd g (nope _)
  rw [if_neg hcrc] at g
  obtain ⟨stop, h4, g1⟩ := Option.bind_eq_some.mp g
  clear g
  by_cases hstop : stop ≠ 0x15
  · rw [if_pos hstop] at g1
    exact absurd g1 (nope _)
  rw [if_neg hstop] at g1
  obtain ⟨sn, h5, g⟩ := Option.bind_eq_some.mp g1
  clear g1
  obtain ⟨optime, h6, g1⟩ := Option.bind_eq_some.mp g
  clear g
  obtain ⟨payload, h7, g⟩ := Option.bind_eq_some.mp g1
  clear g1 nope
  rw [slice_eq_some_iff] at h1 h3 h5 h6 h7
  have l2 : sub32 n 2 < data.length := (List.getElem?_eq_some_iff.mp h2).1
  have l27 : 27 < data.length := (List.getElem?_eq_some_iff.mp h27).1
  have l4 : sub32 n 1 < data.length := (List.getElem?_eq_some_iff.mp h4).1
  rw [getElem?_eq_some_getD l2] at h2
  rw [getElem?_eq_some_getD l27] at h27
  rw [getElem?_eq_some_getD l4] at h4
  simp only [Option.some.injEq] at h2 h27 h4
  simp only [Option.some.injEq, Prod.mk.injEq, true_and] at g
  push_neg at hs hsum hcrc hstop
  subst hs h2 h27 h4
  have e1 := h1.2
  have e3 := h3.2
  have e5 := h5.2
  have e6 := h6.2
  have e7 := h7.2
  subst e1 e3 e5 e6 e7
  have hl3 := h3.1
  exact ⟨h0, l2, l4, h1.1, by omega, hsum, hcrc, hstop, g.symm⟩

/-- The result of `fromResponse` on a buffer that holds every byte it can read. -/
theorem fromResponse_of_bounds (self : DeyeMicroInvModbusRegs) (data : List Nat) (n : Nat)
    (h3 : 3 ≤ n) (hn : n < 2 ^ 32) (hlen : n ≤ data.length)
    (hsub : 30 + data.getD 27 0 ≤ data.length) :
    fromResponse self data n =
      if data.getD 0 0 = 0xA5 ∧
          ((data.drop 1).take (n - 3)).sum % 256 = data.getD (n - 2) 0 ∧
          crc_calc_crc16_reflected 0xFFFF ((data.drop 25).take (3 + data.getD 27 0 + 2)) = 0 ∧
          data.getD (n - 1) 0 = 0x15
      then some (true,
        { serialNumber := le32 ((data.drop 7).take 4)
          totalOperatingSeconds := le32 (((data.drop 13).take 8).take 4)
          dayOperatingSeconds := le32 (((data.drop 13).take 8).drop 4)
          regs := memcpyInto (List.replicate regsSize 0)
            ((data.drop 28).take (data.getD 27 0)) })
      else some (false, self) := by
  have e0 : data[0]? = some (data.getD 0 0) := getElem?_eq_some_getD (by omega)
  have e2 : data[n - 2]? = some (data.getD (n - 2) 0) := getElem?_eq_some_getD (by omega)
  have e1 : data[n - 1]? = some (data.getD (n - 1) 0) := getElem?_eq_some_getD (by omega)
  have e27 : data[27]? = some (data.getD 27 0) := getElem?_eq_some_getD (by omega)
  have s1 : slice data 1 (n - 2 - 1) = some ((data.drop 1).take (n - 3)) := by
    rw [slice_eq_some (by omega)]
    rfl
  have s25 := slice_eq_some (show 25 + (3 + data.getD 27 0 + 2) ≤ data.length by omega)
  have s7 := slice_eq_some (show 7 + 4 ≤ data.length by omega)
  have s13 := slice_eq_some (show 13 + 8 ≤ data.length by omega)
  have s28 := slice_eq_some (show 28 + data.getD 27 0 ≤ data.length by omega)
  unfold fromResponse
  rw [sub32_of_le (by omega) hn, sub32_of_le (by omega) hn, e0, e2, e1, e27, s1]
  simp only [Option.some_bind, s25, s7, s13, s28, sumBytes_eq]
  by_cases c0 : data.getD 0 0 = 0xA5
  · by_cases c1 : ((data.drop 1).take (n - 3)).sum % 256 = data.getD (n - 2) 0
    · by_cases c2 :
          crc_calc_crc16_reflected 0xFFFF ((data.drop 25).take (3 + data.getD 27 0 + 2)) = 0
      · by_cases c3 : data.getD (n - 1) 0 = 0x15
        · simp only [c0, c1, c2, c3, ne_eq, not_true_eq_false, if_false, and_self, if_true]
        · simp only [c0, c1, c2, c3, ne_eq, not_true_eq_false, not_false_eq_true, if_false,
            and_false, if_true]
      · simp only [c0, c1, c2, ne_eq, not_true_eq_false, not_false_eq_true, if_false,
          and_false, false_and, if_true]
    · simp only [c0, c1, ne_eq, not_true_eq_false, not_false_eq_true, if_false,
        and_false, false_and, if_true]
  · simp only [c0, ne_eq, not_false_eq_true, false_and, if_false, if_true]

/-- A failed sum check makes `fromResponse` return `false` and leave the object alone; only
the bytes up to `data[n - 2]` are read. -/
theorem fromResponse_sum_mismatch (self : DeyeMicroInvModbusRegs) (data : List Nat) (n : Nat)
    (h3 : 3 ≤ n) (hn : n < 2 ^ 32) (hlen : n - 1 ≤ data.length)
    (hsum : ((data.drop 1).take (n - 3)).sum % 256 ≠ data.getD (n - 2) 0) :
    fromResponse self data n = some (false, self) := by
  have e0 : data[0]? = some (data.getD 0 0) := getElem?_eq_some_getD (by omega)
  have e2 : data[n - 2]? = some (data.getD (n - 2) 0) := getElem?_eq_some_getD (by omega)
  have s1 : slice data 1 (n - 2 - 1) = some ((data.drop 1).take (n - 3)) := by
    rw [slice_eq_some (by omega)]
    rfl
  unfold fromResponse
  rw [sub32_of_le (by omega) hn, e0, e2, s1]
  simp only [Option.some_bind, sumBytes_eq]
  rw [if_pos hsum]
  by_cases c0 : data.getD 0 0 ≠ 0xA5
  · rw [if_pos c0]
  · rw [if_neg c0]

/-- The object before the call enters the result of `fromResponse` only as the object
returned next to `false`. -/
theorem fromResponse_prior (self1 self2 : DeyeMicroInvModbusRegs) (data : List Nat) (n : Nat) :
    fromResponse self2 data n =
      (fromResponse self1 data n).map fun r => if r.1 = true then r else (false, self2) := by
  unfold fromResponse
  cases data[0]? with
  | none => rfl
  | some start =>
    simp only [Option.some_bind]
    by_cases hs : start ≠ 0xA5
    · rw [if_pos hs, if_pos hs]
      rfl
    rw [if_neg hs, if_neg hs]
    cases slice data 1 (sub32 n 2 - 1) with
    | none => rfl
    | some summed =>
      simp only [Option.some_bind]
      cases data[sub32 n 2]? with
      | none => rfl
      | some sumByte =>
        simp only [Option.some_bind]
        by_cases hsum : sumBytes summed ≠ sumByte
        · rw [if_pos hsum, if_pos hsum]
          rfl
        rw [if_neg hsum, if_neg hsum]
        cases data[27]? with
        | none => rfl
        | some count =>
          simp only [Option.some_bind]
          cases slice data 25 (3 + count + 2) with
          | none => rfl
          | some frame =>
            simp only [Option.some_bind]
            by_cases hcrc : crc_calc_crc16_reflected 0xFFFF frame ≠ 0
            · rw [if_pos hcrc, if_pos hcrc]
              rfl
            rw [if_neg hcrc, if_neg hcrc]
            cases data[sub32 n 1]? with
            | none => rfl
            | some stop =>
              simp only [Option.some_bind]
              by_cases hstop : stop ≠ 0x15
              · rw [if_pos hstop, if_pos hstop]
                rfl
              rw [if_neg hstop, if_neg hstop]
              cases slice data 7 4 with
              | none => rfl
              | some sn =>
                cases slice data 13 8 with
                | none => rfl
                | some optime =>
                  cases slice data 28 count with
                  | none => rfl
                  | some payload => rfl

/-- A `true` result does not depend on the object before the call. -/
theorem fromResponse_true_prior {self1 obj : DeyeMicroInvModbusRegs} {data : List Nat} {n : Nat}
    (h : fromResponse self1 data n = some (true, obj)) (self2 : DeyeMicroInvModbusRegs) :
    fromResponse self2 data n = some (true, obj) := by
  rw [fromResponse_prior self1 self2, h]
  rfl

/-- A `false` result comes with the object as it was before the call. -/
theorem fromResponse_false_inv {self obj : DeyeMicroInvModbusRegs} {data : List Nat} {n : Nat}
    (h : fromResponse self data n = some (false, obj)) : obj = self := by
  have e := fromResponse_prior self self data n
  rw [h] at e
  have e2 : (false, obj) = (false, self) := Option.some.inj e
  exact (Prod.mk.inj e2).2

/-! ## Lemmas on the request frame -/

theorem crc_request :
    crc_calc_crc16_reflected 0xFFFF [0x01, 0x03, 0x00, 0x3b, 0x00, 0x3a] = 0x14B4 := by
  decide!

/-- The request frame, byte by byte. -/
theorem mainRequest_eq (s : Nat) :
    mainRequest s =
      [0xa5, 0x17, 0x00, 0x10, 0x45, 0x00, 0x00,
       s % 256, s >>> 8 % 256, s >>> 16 % 256, s >>> 24 % 256,
       0x02, 0x00, 0x00, 0x00, 0x00, 0x00, 0x00, 0x00, 0x00, 0x00, 0x00, 0x00, 0x00, 0x00, 0x00,
       0x01, 0x03, 0x00, 0x3b, 0x00, 0x3a, 0xb4, 0x14,
       sumBytes
         [0x17, 0x00, 0x10, 0x45, 0x00, 0x00,
          s % 256, s >>> 8 % 256, s >>> 16 % 256, s >>> 24 % 256,
          0x02, 0x00, 0x00, 0x00, 0x00, 0x00, 0x00, 0x00, 0x00, 0x00, 0x00, 0x00, 0x00, 0x00, 0x00,
          0x01, 0x03, 0x00, 0x3b, 0x00, 0x3a, 0xb4, 0x14],
       0x15] := by
  have e1 : 5300 % 256 = 0xb4 := by decide
  have e2 : 5300 >>> 8 % 256 = 0x14 := by decide
  simp only [mainRequest, memcpyAt, memcpyInto, bytes32, requestTemplate, List.take, List.drop,
    List.length, List.append, List.cons_append, List.nil_append, List.set, crc_request,
    List.append_nil, e1, e2]

/-! ## Lemmas on the register area -/

theorem getD_memcpyInto_replicate (src : List Nat) (m k : Nat) (hk : k < m) :
    (memcpyInto (List.replicate m 0) src).getD k 0 = src.getD k 0 := by
  unfold memcpyInto
  simp only [List.length_replicate, List.getD_eq_getElem?_getD]
  by_cases h : k < src.length
  · rw [List.getElem?_append_left (by rw [List.length_take]; omega), List.getElem?_take_of_lt hk]
  · rw [List.getElem?_append_right (by rw [List.length_take]; omega),
      List.getElem?_eq_none (Nat.le_of_not_lt h)]
    simp only [List.getElem?_replicate, List.getElem?_drop]
    split_ifs <;> rfl

theorem getD_take_drop (data : List Nat) (off c k : Nat) :
    ((data.drop off).take c).getD k 0 = if k < c then data.getD (off + k) 0 else 0 := by
  simp only [List.getD_eq_getElem?_getD]
  split_ifs with h
  · rw [List.getElem?_take_of_lt h, List.getElem?_drop]
  · rw [List.getElem?_take_eq_none (Nat.le_of_not_lt h)]
    rfl

theorem length_memcpyInto (dst src : List Nat) : (memcpyInto dst src).length = dst.length := by
  unfold memcpyInto
  rw [List.length_append, List.length_take, List.length_drop]
  omega

/-- The four checks passing on a buffer that holds every byte read gives the result `true`
and the decoded object. -/
theorem fromResponse_accepts (self : DeyeMicroInvModbusRegs) (data : List Nat) (n : Nat)
    (h3 : 3 ≤ n) (hn : n < 2 ^ 32) (hlen : n ≤ data.length)
    (hsub : 30 + data.getD 27 0 ≤ data.length)
    (hc : data.getD 0 0 = 0xA5 ∧
      ((data.drop 1).take (n - 3)).sum % 256 = data.getD (n - 2) 0 ∧
      crc_calc_crc16_reflected 0xFFFF ((data.drop 25).take (3 + data.getD 27 0 + 2)) = 0 ∧
      data.getD (n - 1) 0 = 0x15) :
    fromResponse self data n =
      some (true,
        { serialNumber := le32 ((data.drop 7).take 4)
          totalOperatingSeconds := le32 (((data.drop 13).take 8).take 4)
          dayOperatingSeconds := le32 (((data.drop 13).take 8).drop 4)
          regs := memcpyInto (List.replicate regsSize 0)
            ((data.drop 28).take (data.getD 27 0)) }) := by
  rw [fromResponse_of_bounds self data n h3 hn hlen hsub, if_pos hc]

/-- After a `true` result the register area has 116 bytes: the payload, then zeros. -/
theorem regs_of_true {self obj : DeyeMicroInvModbusRegs} {data : List Nat} {n : Nat}
    (h : fromResponse self data n = some (true, obj)) :
    obj.regs.length = 116 ∧ ∀ k, k < 116 → obj.regs.getD k 0 = payloadByte data k := by
  obtain ⟨_, _, _, _, _, _, _, _, e⟩ := fromResponse_true_inv h
  subst e
  constructor
  · show (memcpyInto _ _).length = 116
    rw [length_memcpyInto, List.length_replicate]
    rfl
  · intro k hk
    show (memcpyInto _ _).getD k 0 = payloadByte data k
    rw [getD_memcpyInto_replicate _ regsSize _ hk, getD_take_drop]
    rfl

/-- After a `true` result the bytes of the register members are the payload bytes. -/
theorem byte_of_true {self obj : DeyeMicroInvModbusRegs} {data : List Nat} {n : Nat}
    (h : fromResponse self data n = some (true, obj)) (member i : Nat) (hk : member + i < 116) :
    obj.byte member i = payloadByte data (member + i) :=
  (regs_of_true h).2 _ hk

/-- After a `true` result the big-endian value of two member bytes is the one of the payload
bytes. -/
theorem be16_of_true {self obj : DeyeMicroInvModbusRegs} {data : List Nat} {n : Nat}
    (h : fromResponse self data n = some (true, obj)) (o : Nat) (ho : o + 1 < 116) :
    ((obj.byte o 0 <<< 8) ||| obj.byte o 1) =
      ((payloadByte data o <<< 8) ||| payloadByte data (o + 1)) := by
  rw [byte_of_true h o 0 (by omega), byte_of_true h o 1 ho]
  rfl

/-- After a `true` result the register-pair value of four member bytes is the one of the
payload bytes. -/
theorem pair32_of_true {self obj : DeyeMicroInvModbusRegs} {data : List Nat} {n : Nat}
    (h : fromResponse self data n = some (true, obj)) (o : Nat) (ho : o + 3 < 116) :
    ((obj.byte o 2 <<< 24) ||| (obj.byte o 3 <<< 16) ||| (obj.byte o 0 <<< 8) ||| obj.byte o 1) =
      ((payloadByte data (o + 2) <<< 24) ||| (payloadByte data (o + 3) <<< 16) |||
        (payloadByte data o <<< 8) ||| payloadByte data (o + 1)) := by
  rw [byte_of_true h o 2 (by omega), byte_of_true h o 3 ho, byte_of_true h o 0 (by omega),
    byte_of_true h o 1 (by omega)]
  rfl

set_option maxRecDepth 8000 in
/-- The sample response of `main.cpp` is accepted, whatever the object held before. -/
theorem fromResponse_response (self : DeyeMicroInvModbusRegs) :
    fromResponse self response 148 =
      some (true,
        { serialNumber := 3942535924
          totalOperatingSeconds := 4085642
          dayOperatingSeconds := 10416
          regs := (response.drop 28).take 116 }) := by
  rw [fromResponse_of_bounds self response 148 (by decide) (by decide) (by decide) (by decide),
    if_pos (by decide!)]
  decide!

/-! ## Lemmas on doubles -/

theorem log2Fuel_bounds : ∀ (fuel n : Nat), n ≤ fuel → n ≠ 0 →
    2 ^ log2Fuel fuel n ≤ n ∧ n < 2 ^ (log2Fuel fuel n + 1) := by
  intro fuel
  induction fuel with
  | zero => intro n h h0; omega
  | succ fuel ih =>
    intro n h h0
    unfold log2Fuel
    split_ifs with h2
    · obtain ⟨l, u⟩ := ih (n / 2) (by omega) (by omega)
      rw [Nat.pow_succ] at u
      rw [Nat.pow_succ, Nat.pow_succ, Nat.pow_succ]
      constructor <;> omega
    · have : n = 1 := by omega
      subst this
      exact ⟨by norm_num, by norm_num⟩

theorem ilog2_le {n : Nat} (h : n ≠ 0) : 2 ^ ilog2 n ≤ n :=
  (log2Fuel_bounds n n (Nat.le_refl n) h).1

theorem lt_ilog2 {n : Nat} (h : n ≠ 0) : n < 2 ^ (ilog2 n + 1) :=
  (log2Fuel_bounds n n (Nat.le_refl n) h).2

/-- Rounding a quotient to the nearest integer is off by at most half. -/
theorem round_quotient (N D : Nat) (hD : 0 < D) :
    2 * ((if D < 2 * (N % D) ∨ (2 * (N % D) = D ∧ N / D % 2 = 1) then N / D + 1 else N / D) * D)
        ≤ 2 * N + D ∧
    2 * N ≤
      2 * ((if D < 2 * (N % D) ∨ (2 * (N % D) = D ∧ N / D % 2 = 1) then N / D + 1 else N / D) * D)
        + D := by
  have e := Nat.div_add_mod N D
  have hr := Nat.mod_lt N hD
  have e2 : N / D * D = D * (N / D) := Nat.mul_comm _ _
  split_ifs with h
  · have e3 : (N / D + 1) * D = N / D * D + D := Nat.succ_mul _ _
    rw [e3]
    constructor <;> omega
  · constructor <;> omega

/-- The scaled value lies at or above `2^52`. -/
theorem scaled_ge (n d : Nat) (hn : n ≠ 0) (hd : d ≠ 0) :
    2 ^ 52 * (d * 2 ^ (ilog2 n - (52 + ilog2 d))) ≤
      n * 2 ^ (52 + ilog2 d - ilog2 n) *
        (if 2 ^ 52 * (d * 2 ^ (ilog2 n - (52 + ilog2 d))) ≤ n * 2 ^ (52 + ilog2 d - ilog2 n)
          then 1 else 2) := by
  split_ifs with h
  · rw [Nat.mul_one]
    exact h
  · have h1 := ilog2_le hn
    have h2 := lt_ilog2 hd
    have e : 52 + (ilog2 d + 1) + (ilog2 n - (52 + ilog2 d)) =
        ilog2 n + (52 + ilog2 d - ilog2 n) + 1 := by omega
    have l1 : 2 ^ 52 * (d * 2 ^ (ilog2 n - (52 + ilog2 d))) ≤
        2 ^ (52 + (ilog2 d + 1) + (ilog2 n - (52 + ilog2 d))) := by
      rw [Nat.pow_add, Nat.pow_add, Nat.mul_assoc]
      exact Nat.mul_le_mul_left _ (Nat.mul_le_mul_right _ (Nat.le_of_lt h2))
    have l2 : 2 ^ (ilog2 n + (52 + ilog2 d - ilog2 n) + 1) ≤
        n * 2 ^ (52 + ilog2 d - ilog2 n) * 2 := by
      rw [Nat.pow_succ, Nat.pow_add]
      exact Nat.mul_le_mul_right _ (Nat.mul_le_mul_right _ h1)
    rw [e] at l1
    exact Nat.le_trans l1 l2

/-- The scaled value lies below `2^53`. -/
theorem scaled_lt (n d : Nat) (hn : n ≠ 0) (hd : d ≠ 0) :
    n * 2 ^ (52 + ilog2 d - ilog2 n) *
        (if 2 ^ 52 * (d * 2 ^ (ilog2 n - (52 + ilog2 d))) ≤ n * 2 ^ (52 + ilog2 d - ilog2 n)
          then 1 else 2) <
      2 ^ 53 * (d * 2 ^ (ilog2 n - (52 + ilog2 d))) := by
  split_ifs with h
  · rw [Nat.mul_one]
    have h1 := lt_ilog2 hn
    have h2 := ilog2_le hd
    have e : ilog2 n + 1 + (52 + ilog2 d - ilog2 n) =
        53 + (ilog2 d + (ilog2 n - (52 + ilog2 d))) := by omega
    have l1 : n * 2 ^ (52 + ilog2 d - ilog2 n) <
        2 ^ (ilog2 n + 1 + (52 + ilog2 d - ilog2 n)) := by
      rw [Nat.pow_add (n := 52 + ilog2 d - ilog2 n)]
      exact Nat.mul_lt_mul_of_pos_right h1 (Nat.pos_pow_of_pos _ (by norm_num))
    have l2 : 2 ^ (53 + (ilog2 d + (ilog2 n - (52 + ilog2 d)))) ≤
        2 ^ 53 * (d * 2 ^ (ilog2 n - (52 + ilog2 d))) := by
      rw [Nat.pow_add, Nat.pow_add]
      exact Nat.mul_le_mul_left _ (Nat.mul_le_mul_right _ h2)
    rw [e] at l1
    exact Nat.lt_of_lt_of_le l1 l2
  · have e : (2 : ℕ) ^ 53 = 2 * 2 ^ 52 := by norm_num
    rw [e]
    omega

/-- The result of `roundBinary64` on a positive value is an integer `m` with
`2^52 <= m <= 2^53` times a power of two. -/
theorem roundBinary64_mantissa (x : ℚ) (h0 : x.num.toNat ≠ 0) :
    ∃ m a b : ℕ, 2 ^ 52 ≤ m ∧ m ≤ 2 ^ 53 ∧
      roundBinary64 x = ((m * 2 ^ b : ℕ) : ℚ) / ((2 ^ a : ℕ) : ℚ) := by
  have hd : x.den ≠ 0 := x.den_nz
  have hS := scaled_ge x.num.toNat x.den h0 hd
  have hT := scaled_lt x.num.toNat x.den h0 hd
  unfold roundBinary64
  simp only [if_neg h0]
  generalize x.num.toNat = n at *
  generalize x.den = d at *
  generalize 52 + ilog2 d - ilog2 n = a at *
  generalize ilog2 n - (52 + ilog2 d) = b at *
  have hDpos : 0 < d * 2 ^ b :=
    Nat.mul_pos (Nat.pos_of_ne_zero hd) (Nat.pos_pow_of_pos _ (by norm_num))
  have hc : ∃ k : ℕ, 2 ^ a * (if 2 ^ 52 * (d * 2 ^ b) ≤ n * 2 ^ a then 1 else 2) = 2 ^ k := by
    split_ifs
    · exact ⟨a, Nat.mul_one _⟩
    · exact ⟨a + 1, (Nat.pow_succ 2 a).symm⟩
  obtain ⟨k, hk⟩ := hc
  generalize (if 2 ^ 52 * (d * 2 ^ b) ≤ n * 2 ^ a then 1 else 2) = c at *
  have q1 : 2 ^ 52 ≤ n * 2 ^ a * c / (d * 2 ^ b) :=
    (Nat.le_div_iff_mul_le hDpos).mpr hS
  have q2 : n * 2 ^ a * c / (d * 2 ^ b) < 2 ^ 53 :=
    (Nat.div_lt_iff_lt_mul hDpos).mpr hT
  rw [hk]
  refine ⟨_, k, b, ?_, ?_, rfl⟩
  · split_ifs <;> omega
  · split_ifs <;> omega

theorem roundBinary64_zero : roundBinary64 0 = 0 := by
  unfold roundBinary64
  simp

theorem roundBinary64_nonneg (x : ℚ) : 0 ≤ roundBinary64 x := by
  unfold roundBinary64
  by_cases h : x.num.toNat = 0
  · simp only [if_pos h]
    exact le_refl 0
  · simp only [if_neg h]
    exact div_nonneg (Nat.cast_nonneg _) (Nat.cast_nonneg _)

/-- Rounding to binary64 changes a non-negative value by at most the fraction `2^-53` of
the value. -/
theorem roundBinary64_error (x : ℚ) (hx : 0 ≤ x) : |roundBinary64 x - x| ≤ x / 2 ^ 53 := by
  have hnum : 0 ≤ x.num := Rat.num_nonneg.mpr hx
  by_cases h0 : x.num.toNat = 0
  · have hz : x.num = 0 := by omega
    have hx0 : x = 0 := Rat.zero_of_num_zero hz
    subst hx0
    rw [roundBinary64_zero]
    simp
  · unfold roundBinary64
    simp only [if_neg h0]
    have hd : x.den ≠ 0 := x.den_nz
    have hS := scaled_ge x.num.toNat x.den h0 hd
    generalize hn : x.num.toNat = n at *
    generalize hdd : x.den = d at *
    generalize ha : 52 + ilog2 d - ilog2 n = a at *
    generalize hb : ilog2 n - (52 + ilog2 d) = b at *
    generalize hc : (if 2 ^ 52 * (d * 2 ^ b) ≤ n * 2 ^ a then 1 else 2) = c at *
    have hcpos : 0 < c := by
      rw [← hc]
      split_ifs <;> norm_num
    have hDpos : 0 < d * 2 ^ b := Nat.mul_pos (Nat.pos_of_ne_zero hd) (Nat.pos_pow_of_pos _ (by norm_num))
    have hR := round_quotient (n * 2 ^ a * c) (d * 2 ^ b) hDpos
    generalize hq : (if d * 2 ^ b < 2 * (n * 2 ^ a * c % (d * 2 ^ b)) ∨
        2 * (n * 2 ^ a * c % (d * 2 ^ b)) = d * 2 ^ b ∧ n * 2 ^ a * c / (d * 2 ^ b) % 2 = 1
        then n * 2 ^ a * c / (d * 2 ^ b) + 1 else n * 2 ^ a * c / (d * 2 ^ b)) = q at *
    have hxv : x = (n : ℚ) / (d : ℚ) := by
      have e := Rat.num_div_den x
      have e2 : ((x.num.toNat : ℤ) : ℚ) = (x.num : ℚ) := by
        rw [Int.toNat_of_nonneg hnum]
      rw [← e, ← e2, hn, hdd]
      simp
    have hdq : (0 : ℚ) < d := by exact_mod_cast Nat.pos_of_ne_zero hd
    have hMq : (0 : ℚ) < ((2 ^ a * c : ℕ) : ℚ) := by
      exact_mod_cast Nat.mul_pos (Nat.pos_pow_of_pos _ (by norm_num)) hcpos
    have hM : (0 : ℚ) < ((2 ^ a * c : ℕ) : ℚ) * d := mul_pos hMq hdq
    have c1 : (((q * 2 ^ b : ℕ) : ℚ) / ((2 ^ a * c : ℕ) : ℚ)) * (((2 ^ a * c : ℕ) : ℚ) * d) =
        ((q * (d * 2 ^ b) : ℕ) : ℚ) := by
      field_simp
      ring
    have c2 : x * (((2 ^ a * c : ℕ) : ℚ) * d) = ((n * 2 ^ a * c : ℕ) : ℚ) := by
      rw [hxv]
      field_simp
      ring
    have r1 : (2 : ℚ) * ((q * (d * 2 ^ b) : ℕ) : ℚ) ≤ 2 * ((n * 2 ^ a * c : ℕ) : ℚ) + ((d * 2 ^ b : ℕ) : ℚ) := by
      exact_mod_cast hR.1
    have r2 : (2 : ℚ) * ((n * 2 ^ a * c : ℕ) : ℚ) ≤ 2 * ((q * (d * 2 ^ b) : ℕ) : ℚ) + ((d * 2 ^ b : ℕ) : ℚ) := by
      exact_mod_cast hR.2
    have r3 : (2 : ℚ) ^ 52 * ((d * 2 ^ b : ℕ) : ℚ) ≤ ((n * 2 ^ a * c : ℕ) : ℚ) := by
      exact_mod_cast hS
    rw [abs_le]
    constructor
    · apply le_of_mul_le_mul_right _ hM
      rw [sub_mul, c1, c2, neg_mul, div_mul_eq_mul_div, c2]
      generalize ((q * (d * 2 ^ b) : ℕ) : ℚ) = Q at r1 r2 ⊢
      generalize ((n * 2 ^ a * c : ℕ) : ℚ) = P at r1 r2 r3 ⊢
      generalize ((d * 2 ^ b : ℕ) : ℚ) = R at r1 r2 r3 ⊢
      norm_num at r3 ⊢
      linarith
    · apply le_of_mul_le_mul_right _ hM
      rw [sub_mul, c1, c2, div_mul_eq_mul_div, c2]
      generalize ((q * (d * 2 ^ b) : ℕ) : ℚ) = Q at r1 r2 ⊢
      generalize ((n * 2 ^ a * c : ℕ) : ℚ) = P at r1 r2 r3 ⊢
      generalize ((d * 2 ^ b : ℕ) : ℚ) = R at r1 r2 r3 ⊢
      norm_num at r3 ⊢
      linarith

theorem fmul_zero_right (c : ℚ) : fmul c ((0 : ℕ) : ℚ) = 0 := by
  rw [fmul, Nat.cast_zero, mul_zero, roundBinary64_zero]

theorem fmul_nonneg (a b : ℚ) : 0 ≤ fmul a b :=
  roundBinary64_nonneg _

/-- A `double` product differs from the exact product by at most the fraction `2^-53` of
it. -/
theorem fmul_error (a b : ℚ) (ha : 0 ≤ a) (hb : 0 ≤ b) :
    |fmul a b - a * b| ≤ a * b / 2 ^ 53 :=
  roundBinary64_error _ (mul_nonneg ha hb)

/-- The `double` product `0.1 * v` is one tenth of `v` up to the fraction `2^-52`. -/
theorem fmul_0_1_error (v : Nat) :
    |fmul double_0_1 (v : ℚ) - (v : ℚ) / 10| ≤ (v : ℚ) / 10 / 2 ^ 52 := by
  have hv : (0 : ℚ) ≤ v := Nat.cast_nonneg v
  have h := fmul_error double_0_1 v (by unfold double_0_1; positivity) hv
  unfold double_0_1 at h ⊢
  rw [abs_le] at h ⊢
  obtain ⟨h1, h2⟩ := h
  norm_num at h1 h2 ⊢
  constructor <;> linarith

/-- The `double` product `0.01 * v` is one hundredth of `v` up to the fraction `2^-52`. -/
theorem fmul_0_01_error (v : Nat) :
    |fmul double_0_01 (v : ℚ) - (v : ℚ) / 100| ≤ (v : ℚ) / 100 / 2 ^ 52 := by
  have hv : (0 : ℚ) ≤ v := Nat.cast_nonneg v
  have h := fmul_error double_0_01 v (by unfold double_0_01; positivity) hv
  unfold double_0_01 at h ⊢
  rw [abs_le] at h ⊢
  obtain ⟨h1, h2⟩ := h
  norm_num at h1 h2 ⊢
  constructor <;> linarith

/-! ## Lemmas on the duration helpers -/

theorem length_fmt_u (n e : Nat) (he : 0 < e) (h : n < 10 ^ e) : (fmt_u n).length ≤ e :=
  Nat.toDigitsCore_length 10 (by decide) (n + 1) n e h he

theorem length_fmt_02u (n e : Nat) (he : 2 ≤ e) (h : n < 10 ^ e) : (fmt_02u n).length ≤ e := by
  have hd : (Nat.toDigits 10 n).length ≤ e := length_fmt_u n e (by omega) h
  unfold fmt_02u
  rw [List.length_append, List.length_replicate]
  omega

theorem fmt_02u_two_digits :
    ∀ n, n < 100 → fmt_02u n = [Char.ofNat (48 + n / 10), Char.ofNat (48 + n % 10)] := by
  decide

/-! ## Theorems -/

/-- C1: for every buffer `data` and received length `n >= 3` (a `uint32_t`), the buffer
holding every byte that is read (`n` bytes, and the CRC range of `3 + data[27] + 2` bytes from
offset 25), `fromResponse` returns, and it returns `true` if and only if `data[0] = 0xA5`, the
sum modulo 256 of `data[1] .. data[n-3]` equals `data[n-2]`, the CRC-16 (seed `0xFFFF`) over
the `3 + data[27] + 2` bytes from offset 25 is zero, and `data[n-1] = 0x15`. Nothing else (the
length field `data[1..2]`, the function code `data[26]`) decides acceptance. -/
theorem fromResponse_true_iff (self : DeyeMicroInvModbusRegs) (data : List Nat) (n : Nat)
    (h3 : 3 ≤ n) (hn : n < 2 ^ 32) (hlen : n ≤ data.length)
    (hsub : 25 + (3 + data.getD 27 0 + 2) ≤ data.length) :
    ∃ r, fromResponse self data n = some r ∧
      (r.1 = true ↔
        data.getD 0 0 = 0xA5 ∧
        ((data.drop 1).take (n - 3)).sum % 256 = data.getD (n - 2) 0 ∧
        crc_calc_crc16_reflected 0xFFFF ((data.drop 25).take (3 + data.getD 27 0 + 2)) = 0 ∧
        data.getD (n - 1) 0 = 0x15) := by
  rw [fromResponse_of_bounds self data n h3 hn hlen (by omega)]
  split_ifs with c
  · exact ⟨_, rfl, fun _ => c, fun _ => rfl⟩
  · exact ⟨_, rfl, fun h => Bool.noConfusion h, fun h => absurd h c⟩

set_option maxRecDepth 8000 in
/-- Witness for C1: the sample response of `main.cpp`, received in full. -/
theorem fromResponse_true_iff_witness :
    ∃ r, fromResponse zeroRegs response 148 = some r ∧
      (r.1 = true ↔
        response.getD 0 0 = 0xA5 ∧
        ((response.drop 1).take (148 - 3)).sum % 256 = response.getD (148 - 2) 0 ∧
        crc_calc_crc16_reflected 0xFFFF
          ((response.drop 25).take (3 + response.getD 27 0 + 2)) = 0 ∧
        response.getD (148 - 1) 0 = 0x15) :=
  fromResponse_true_iff zeroRegs response 148 (by decide) (by decide) (by decide) (by decide)

/-- C2: if `fromResponse` accepts a buffer of bytes with length `n >= 3`, then for every index
`i` with `1 <= i <= n - 2` and every byte `v` other than `data[i]`, it returns `false` on the
buffer with `data[i]` replaced by `v` (same length `n`), whatever the object was before. -/
theorem fromResponse_rejects_mutation (self obj self2 : DeyeMicroInvModbusRegs)
    (data : List Nat) (n i v : Nat) (h3 : 3 ≤ n) (hn : n < 2 ^ 32)
    (hbytes : ∀ b ∈ data, b < 256)
    (hacc : fromResponse self data n = some (true, obj))
    (hi1 : 1 ≤ i) (hi2 : i ≤ n - 2) (hv : v < 256) (hne : v ≠ data.getD i 0) :
    fromResponse self2 (data.set i v) n = some (false, self2) := by
  obtain ⟨_, l2, l1, _, _, hsum, _, _, _⟩ := fromResponse_true_inv hacc
  rw [sub32_of_le (by omega) hn] at l2 hsum
  rw [sub32_of_le (by omega) hn] at l1
  rw [sumBytes_eq, show n - 2 - 1 = n - 3 by omega] at hsum
  have hold : data.getD i 0 < 256 := getD_lt_of_bytes hbytes (by omega)
  apply fromResponse_sum_mismatch self2 (data.set i v) n h3 hn
  · rw [List.length_set]
    omega
  · cases data with
    | nil => simp at l2
    | cons d0 t =>
      cases i with
      | zero => omega
      | succ j =>
        rw [List.length_cons] at l2
        rw [List.getD_cons_succ] at hne hold
        rw [List.drop_one, List.tail_cons] at hsum
        rw [List.set_cons_succ, List.drop_one, List.tail_cons]
        by_cases hj : j < n - 3
        · have hs := sum_take_set t j (n - 3) v hj (by omega)
          have hg : (d0 :: t.set j v).getD (n - 2) 0 = (d0 :: t).getD (n - 2) 0 := by
            rw [← List.set_cons_succ]
            exact getD_set_ne (d0 :: t) (j + 1) (n - 2) v (by omega)
          rw [hg]
          omega
        · have hj2 : j + 1 = n - 2 := by omega
          have hs := take_set_of_le t j (n - 3) v (by omega)
          have hg : (d0 :: t.set j v).getD (n - 2) 0 = v := by
            rw [← List.set_cons_succ, ← hj2]
            exact getD_set_self (d0 :: t) (j + 1) v (by rw [List.length_cons]; omega)
          rw [hg, hs]
          rw [← hj2, List.getD_cons_succ] at hsum
          omega

set_option maxRecDepth 8000 in
/-- Witness for C2: the sample response with its payload-length byte `data[27] = 0x74`
replaced by `0x72`. -/
theorem fromResponse_rejects_mutation_witness :
    fromResponse zeroRegs (response.set 27 0x72) 148 = some (false, zeroRegs) :=
  fromResponse_rejects_mutation zeroRegs _ zeroRegs response 148 27 0x72 (by decide) (by decide)
    (by decide) (fromResponse_response zeroRegs) (by decide) (by decide) (by decide) (by decide)

/-- C3: for every byte sequence `d`, with `c = crc16(0xFFFF, d)` the reflected CRC-16 of the
CRC engine, the CRC over `d` followed by `c` in little-endian order (`c mod 256`, then
`c div 256`) is zero. -/
theorem crc_appended_is_zero (d : List Nat) :
    crc_calc_crc16_reflected 0xFFFF
      (d ++ [crc_calc_crc16_reflected 0xFFFF d % 256, crc_calc_crc16_reflected 0xFFFF d / 256])
      = 0 := by
  rw [crc_append, crc_own_bytes]

/-- C4: for every serial number `s`, byte 34 of the request frame built in `main` is the sum
modulo 256 of its bytes 1..33, and the CRC-16 (seed `0xFFFF`) over its 8 bytes at offsets
26..33 (the six sub-frame bytes and the stored CRC) is zero. -/
theorem mainRequest_integrity (s : Nat) :
    (mainRequest s).getD 34 0 = (((mainRequest s).drop 1).take 33).sum % 256 ∧
    crc_calc_crc16_reflected 0xFFFF (((mainRequest s).drop 26).take 8) = 0 := by
  rw [mainRequest_eq]
  generalize s % 256 = b0
  generalize s >>> 8 % 256 = b1
  generalize s >>> 16 % 256 = b2
  generalize s >>> 24 % 256 = b3
  simp only [List.getD_cons_succ, List.getD_cons_zero, List.drop_succ_cons, List.drop_zero,
    List.take_succ_cons, List.take_zero, List.take_nil]
  exact ⟨sumBytes_eq _, by decide!⟩

/-- C5: for every 32-bit serial number `s`, the request frame has exactly 36 bytes, byte 0 is
`0xA5`, bytes 7..10 are `s` in little-endian order, bytes 26..31 are `01 03 00 3B 00 3A`,
byte 35 is `0x15`, and every byte outside offsets 7..10 and 32..34 is the byte of the fixed
template `requestTemplate`, whatever `s` is. -/
theorem mainRequest_layout (s : Nat) (hs : s < 2 ^ 32) :
    (mainRequest s).length = 36 ∧
    (mainRequest s).getD 0 0 = 0xA5 ∧
    (mainRequest s).getD 7 0 = s % 256 ∧
    (mainRequest s).getD 8 0 = (s / 2 ^ 8) % 256 ∧
    (mainRequest s).getD 9 0 = (s / 2 ^ 16) % 256 ∧
    (mainRequest s).getD 10 0 = s / 2 ^ 24 ∧
    ((mainRequest s).drop 26).take 6 = [0x01, 0x03, 0x00, 0x3B, 0x00, 0x3A] ∧
    (mainRequest s).getD 35 0 = 0x15 ∧
    ∀ i, i < 36 → ¬ (7 ≤ i ∧ i ≤ 10) → ¬ (32 ≤ i ∧ i ≤ 34) →
      (mainRequest s).getD i 0 = requestTemplate.getD i 0 := by
  have e1 : s >>> 8 % 256 = s / 2 ^ 8 % 256 := by rw [Nat.shiftRight_eq_div_pow]
  have e2 : s >>> 16 % 256 = s / 2 ^ 16 % 256 := by rw [Nat.shiftRight_eq_div_pow]
  have e3 : s >>> 24 % 256 = s / 2 ^ 24 := by
    rw [Nat.shiftRight_eq_div_pow]
    apply Nat.mod_eq_of_lt
    rw [Nat.div_lt_iff_lt_mul (by norm_num)]
    omega
  rw [mainRequest_eq, e1, e2, e3]
  generalize s % 256 = b0
  generalize s / 2 ^ 8 % 256 = b1
  generalize s / 2 ^ 16 % 256 = b2
  generalize s / 2 ^ 24 = b3
  generalize sumBytes _ = sum
  refine ⟨rfl, rfl, rfl, rfl, rfl, rfl, rfl, rfl, ?_⟩
  intro i hi h1 h2
  unfold requestTemplate
  interval_cases i <;> first | rfl | omega

/-- Witness for C5: the serial number of the usage example. -/
theorem mainRequest_layout_witness :
    (mainRequest 3942535924).length = 36 ∧
    (mainRequest 3942535924).getD 0 0 = 0xA5 ∧
    (mainRequest 3942535924).getD 7 0 = 3942535924 % 256 ∧
    (mainRequest 3942535924).getD 8 0 = (3942535924 / 2 ^ 8) % 256 ∧
    (mainRequest 3942535924).getD 9 0 = (3942535924 / 2 ^ 16) % 256 ∧
    (mainRequest 3942535924).getD 10 0 = 3942535924 / 2 ^ 24 ∧
    ((mainRequest 3942535924).drop 26).take 6 = [0x01, 0x03, 0x00, 0x3B, 0x00, 0x3A] ∧
    (mainRequest 3942535924).getD 35 0 = 0x15 ∧
    ∀ i, i < 36 → ¬ (7 ≤ i ∧ i ≤ 10) → ¬ (32 ≤ i ∧ i ≤ 34) →
      (mainRequest 3942535924).getD i 0 = requestTemplate.getD i 0 :=
  mainRequest_layout 3942535924 (by norm_num)

set_option maxRecDepth 8000 in
/-- C7 fails as stated: the 146-byte response `response57` with 57 registers is accepted and
its payload-length byte is 114, below 116. -/
theorem fromResponse_accepts_57_registers :
    (fromResponse zeroRegs response57 146).map Prod.fst = some true ∧
    response57.getD 27 0 = 114 ∧ 114 < 116 := by
  decide!

/-- C7 as amended: after `fromResponse` has accepted a buffer, the register area has exactly
116 bytes, so every field lookup up to register 116 inclusive stays inside it: byte `k` of the
area is the payload byte `data[28 + k]` for `k < data[27]` and zero for the other `k < 116`
(the object is zeroed before the payload is copied). -/
theorem fromResponse_register_area (self obj : DeyeMicroInvModbusRegs) (data : List Nat)
    (n : Nat) (hacc : fromResponse self data n = some (true, obj)) :
    obj.regs.length = 116 ∧
    ∀ k, k < 116 →
      obj.regs.getD k 0 = if k < data.getD 27 0 then data.getD (28 + k) 0 else 0 :=
  regs_of_true hacc

set_option maxRecDepth 8000 in
/-- Witness for C7 as amended: the response with 57 registers. -/
theorem fromResponse_register_area_witness :
    ∃ obj, fromResponse zeroRegs response57 146 = some (true, obj) ∧
      obj.regs.length = 116 ∧
      ∀ k, k < 116 →
        obj.regs.getD k 0 = if k < response57.getD 27 0 then response57.getD (28 + k) 0 else 0 :=
  ⟨_, fromResponse_accepts zeroRegs response57 146 (by decide) (by decide) (by decide)
      (by decide) (by decide!),
    fromResponse_register_area zeroRegs _ response57 146
      (fromResponse_accepts zeroRegs response57 146 (by decide) (by decide) (by decide)
        (by decide) (by decide!))⟩

set_option maxRecDepth 8000 in
/-- C8: `fromResponse` accepts the sample response `response` of `main.cpp` passed with its
full size (148 bytes), whatever the object held before, and the decoded record has serial
number 3942535924, `totalOperatingSeconds` 4085642, `dayOperatingSeconds` 10416, `status()` 4,
AC voltage raw value 2350 (returned as the double 235), AC frequency raw value 5000 (double
50), AC total energy raw value 2201 (the double `0.1 * 2201` is 1936020074187981 / 2^43, that
is 220.10000000000002, above 2201/10 by 1/(5 * 2^43)), PV1 voltage raw value 270 (double 27)
and PV1 current raw value 5 (double 1/2). -/
theorem fromResponse_sample (self : DeyeMicroInvModbusRegs) :
    ∃ obj, fromResponse self response response.length = some (true, obj) ∧
      obj.serialNumber = 3942535924 ∧
      obj.totalOperatingSeconds = 4085642 ∧
      obj.dayOperatingSeconds = 10416 ∧
      obj.status = 4 ∧
      obj.acVoltage_val = 2350 ∧ obj.acVoltage = 235 ∧
      obj.acFrequency_val = 5000 ∧ obj.acFrequency = 50 ∧
      obj.acTotalEnergy_val = 2201 ∧ obj.acTotalEnergy = 1936020074187981 / 2 ^ 43 ∧
      obj.acTotalEnergy - 2201 / 10 = 1 / (5 * 2 ^ 43) ∧
      obj.pvVoltage_val 0 = 270 ∧ obj.pvVoltage 0 = 27 ∧
      obj.pvCurrent_val 0 = 5 ∧ obj.pvCurrent 0 = 1 / 2 := by
  refine ⟨_, fromResponse_response self, rfl, rfl, rfl, ?_⟩
  decide!

set_option maxRecDepth 8000 in
/-- C9 fails as stated: on the accepted response `responseEnergy` (payload bytes 8..11 are
`00 08 00 99`, raw value 10027016) `acTotalEnergy()` returns the double
2153285289823437 / 2^31 (1002701.6000000001), which is neither 10027016/10 nor the double
nearest to it. -/
theorem acTotalEnergy_not_exact_tenth :
    (fromResponse zeroRegs responseEnergy 148).map
        (fun r => (r.1, r.2.acTotalEnergy_val, r.2.acTotalEnergy)) =
      some (true, 10027016, 2153285289823437 / 2 ^ 31) ∧
    (2153285289823437 / 2 ^ 31 : ℚ) ≠ 10027016 / 10 ∧
    (2153285289823437 / 2 ^ 31 : ℚ) ≠ roundBinary64 (10027016 / 10) := by
  decide!

/-- C9 as amended: after `fromResponse` has accepted a buffer, `acTotalEnergy()` and
`pvTotalEnergy(pv)` for `pv = 0..3` each return the `double` product `0.1 * raw` of the value
`raw = (b2 << 24) | (b3 << 16) | (b0 << 8) | b1`, where `b0 b1 b2 b3` are the payload bytes at
offsets 8..11 (registers 63-64) for the AC total and at offsets 20.., 24.., 30.., 36..
(registers 69-70, 71-72, 74-75, 77-78) for PV1..PV4; the returned value differs from raw/10
by at most `raw/10 * 2^-52`; with the bytes `00 08 00 99` the raw value is
0x990008 = 10027016 and the AC total is the double 2153285289823437 / 2^31. -/
theorem totalEnergy_register_pair (self obj : DeyeMicroInvModbusRegs) (data : List Nat)
    (n : Nat) (hacc : fromResponse self data n = some (true, obj)) :
    (obj.acTotalEnergy =
      fmul double_0_1 (((payloadByte data 10 <<< 24) ||| (payloadByte data 11 <<< 16) |||
        (payloadByte data 8 <<< 8) ||| payloadByte data 9 : ℕ) : ℚ) ∧
     |obj.acTotalEnergy -
      (((payloadByte data 10 <<< 24) ||| (payloadByte data 11 <<< 16) |||
        (payloadByte data 8 <<< 8) ||| payloadByte data 9 : ℕ) : ℚ) / 10| ≤
      (((payloadByte data 10 <<< 24) ||| (payloadByte data 11 <<< 16) |||
        (payloadByte data 8 <<< 8) ||| payloadByte data 9 : ℕ) : ℚ) / 10 / 2 ^ 52) ∧
    (obj.pvTotalEnergy 0 =
      fmul double_0_1 (((payloadByte data 22 <<< 24) ||| (payloadByte data 23 <<< 16) |||
        (payloadByte data 20 <<< 8) ||| payloadByte data 21 : ℕ) : ℚ) ∧
     |obj.pvTotalEnergy 0 -
      (((payloadByte data 22 <<< 24) ||| (payloadByte data 23 <<< 16) |||
        (payloadByte data 20 <<< 8) ||| payloadByte data 21 : ℕ) : ℚ) / 10| ≤
      (((payloadByte data 22 <<< 24) ||| (payloadByte data 23 <<< 16) |||
        (payloadByte data 20 <<< 8) ||| payloadByte data 21 : ℕ) : ℚ) / 10 / 2 ^ 52) ∧
    (obj.pvTotalEnergy 1 =
      fmul double_0_1 (((payloadByte data 26 <<< 24) ||| (payloadByte data 27 <<< 16) |||
        (payloadByte data 24 <<< 8) ||| payloadByte data 25 : ℕ) : ℚ) ∧
     |obj.pvTotalEnergy 1 -
      (((payloadByte data 26 <<< 24) ||| (payloadByte data 27 <<< 16) |||
        (payloadByte data 24 <<< 8) ||| payloadByte data 25 : ℕ) : ℚ) / 10| ≤
      (((payloadByte data 26 <<< 24) ||| (payloadByte data 27 <<< 16) |||
        (payloadByte data 24 <<< 8) ||| payloadByte data 25 : ℕ) : ℚ) / 10 / 2 ^ 52) ∧
    (obj.pvTotalEnergy 2 =
      fmul double_0_1 (((payloadByte data 32 <<< 24) ||| (payloadByte data 33 <<< 16) |||
        (payloadByte data 30 <<< 8) ||| payloadByte data 31 : ℕ) : ℚ) ∧
     |obj.pvTotalEnergy 2 -
      (((payloadByte data 32 <<< 24) ||| (payloadByte data 33 <<< 16) |||
        (payloadByte data 30 <<< 8) ||| payloadByte data 31 : ℕ) : ℚ) / 10| ≤
      (((payloadByte data 32 <<< 24) ||| (payloadByte data 33 <<< 16) |||
        (payloadByte data 30 <<< 8) ||| payloadByte data 31 : ℕ) : ℚ) / 10 / 2 ^ 52) ∧
    (obj.pvTotalEnergy 3 =
      fmul double_0_1 (((payloadByte data 38 <<< 24) ||| (payloadByte data 39 <<< 16) |||
        (payloadByte data 36 <<< 8) ||| payloadByte data 37 : ℕ) : ℚ) ∧
     |obj.pvTotalEnergy 3 -
      (((payloadByte data 38 <<< 24) ||| (payloadByte data 39 <<< 16) |||
        (payloadByte data 36 <<< 8) ||| payloadByte data 37 : ℕ) : ℚ) / 10| ≤
      (((payloadByte data 38 <<< 24) ||| (payloadByte data 39 <<< 16) |||
        (payloadByte data 36 <<< 8) ||| payloadByte data 37 : ℕ) : ℚ) / 10 / 2 ^ 52) ∧
    (payloadByte data 8 = 0x00 → payloadByte data 9 = 0x08 → payloadByte data 10 = 0x00 →
      payloadByte data 11 = 0x99 →
      10027016 = 0x990008 ∧ obj.acTotalEnergy_val = 10027016 ∧
      obj.acTotalEnergy = 2153285289823437 / 2 ^ 31) := by
  refine ⟨?_, ?_, ?_, ?_, ?_, ?_⟩
  · have e : obj.acTotalEnergy =
        fmul double_0_1 (((payloadByte data 10 <<< 24) ||| (payloadByte data 11 <<< 16) |||
        (payloadByte data 8 <<< 8) ||| payloadByte data 9 : ℕ) : ℚ) := by
      show fmul double_0_1 (((obj.byte 8 2 <<< 24) ||| (obj.byte 8 3 <<< 16) |||
        (obj.byte 8 0 <<< 8) ||| obj.byte 8 1 : ℕ) : ℚ) = _
      rw [pair32_of_true hacc 8 (by decide)]
    refine ⟨e, ?_⟩
    rw [e]
    exact fmul_0_1_error _
  · have e : obj.pvTotalEnergy 0 =
        fmul double_0_1 (((payloadByte data 22 <<< 24) ||| (payloadByte data 23 <<< 16) |||
        (payloadByte data 20 <<< 8) ||| payloadByte data 21 : ℕ) : ℚ) := by
      show fmul double_0_1 (((obj.byte 20 2 <<< 24) ||| (obj.byte 20 3 <<< 16) |||
        (obj.byte 20 0 <<< 8) ||| obj.byte 20 1 : ℕ) : ℚ) = _
      rw [pair32_of_true hacc 20 (by decide)]
    refine ⟨e, ?_⟩
    rw [e]
    exact fmul_0_1_error _
  · have e : obj.pvTotalEnergy 1 =
        fmul double_0_1 (((payloadByte data 26 <<< 24) ||| (payloadByte data 27 <<< 16) |||
        (payloadByte data 24 <<< 8) ||| payloadByte data 25 : ℕ) : ℚ) := by
      show fmul double_0_1 (((obj.byte 24 2 <<< 24) ||| (obj.byte 24 3 <<< 16) |||
        (obj.byte 24 0 <<< 8) ||| obj.byte 24 1 : ℕ) : ℚ) = _
      rw [pair32_of_true hacc 24 (by decide)]
    refine ⟨e, ?_⟩
    rw [e]
    exact fmul_0_1_error _
  · have e : obj.pvTotalEnergy 2 =
        fmul double_0_1 (((payloadByte data 32 <<< 24) ||| (payloadByte data 33 <<< 16) |||
        (payloadByte data 30 <<< 8) ||| payloadByte data 31 : ℕ) : ℚ) := by
      show fmul double_0_1 (((obj.byte 30 2 <<< 24) ||| (obj.byte 30 3 <<< 16) |||
        (obj.byte 30 0 <<< 8) ||| obj.byte 30 1 : ℕ) : ℚ) = _
      rw [pair32_of_true hacc 30 (by decide)]
    refine ⟨e, ?_⟩
    rw [e]
    exact fmul_0_1_error _
  · have e : obj.pvTotalEnergy 3 =
        fmul double_0_1 (((payloadByte data 38 <<< 24) ||| (payloadByte data 39 <<< 16) |||
        (payloadByte data 36 <<< 8) ||| payloadByte data 37 : ℕ) : ℚ) := by
      show fmul double_0_1 (((obj.byte 36 2 <<< 24) ||| (obj.byte 36 3 <<< 16) |||
        (obj.byte 36 0 <<< 8) ||| obj.byte 36 1 : ℕ) : ℚ) = _
      rw [pair32_of_true hacc 36 (by decide)]
    refine ⟨e, ?_⟩
    rw [e]
    exact fmul_0_1_error _
  · intro h8 h9 h10 h11
    have e : obj.byte 8 2 <<< 24 ||| obj.byte 8 3 <<< 16 ||| obj.byte 8 0 <<< 8 |||
        obj.byte 8 1 = _ := pair32_of_true hacc 8 (by decide)
    rw [h8, h9, h10, h11] at e
    have ev : obj.acTotalEnergy_val = 10027016 := e
    have ed : fmul double_0_1 ((10027016 : ℕ) : ℚ) = 2153285289823437 / 2 ^ 31 := by decide!
    refine ⟨by decide, ev, ?_⟩
    show fmul double_0_1 (obj.acTotalEnergy_val : ℚ) = _
    rw [ev, ed]

set_option maxRecDepth 8000 in
/-- Witness for C9 as amended: the response `responseEnergy`, whose payload bytes 8..11 are
`00 08 00 99`. -/
theorem totalEnergy_register_pair_witness :
    ∃ obj, fromResponse zeroRegs responseEnergy 148 = some (true, obj) ∧
      obj.acTotalEnergy = 2153285289823437 / 2 ^ 31 :=
  ⟨_, fromResponse_accepts zeroRegs responseEnergy 148 (by decide) (by decide) (by decide)
      (by decide) (by decide!),
    ((totalEnergy_register_pair zeroRegs _ responseEnergy 148
      (fromResponse_accepts zeroRegs responseEnergy 148 (by decide) (by decide) (by decide)
        (by decide) (by decide!))).2.2.2.2.2
      (by decide) (by decide) (by decide) (by decide)).2.2⟩

set_option maxRecDepth 8000 in
/-- C11 fails as stated: on the accepted response `responseRaw3` (payload bytes 28..29 are
`00 03`, raw value 3) `acVoltage()` returns the double 1351079888211149 / 2^52
(0.30000000000000004), which is neither 3/10 nor the double nearest to it. -/
theorem acVoltage_not_exact_tenth :
    (fromResponse zeroRegs responseRaw3 148).map
        (fun r => (r.1, r.2.acVoltage_val, r.2.acVoltage)) =
      some (true, 3, 1351079888211149 / 2 ^ 52) ∧
    (1351079888211149 / 2 ^ 52 : ℚ) ≠ 3 / 10 ∧
    (1351079888211149 / 2 ^ 52 : ℚ) ≠ roundBinary64 (3 / 10) := by
  decide!

/-- C11 as amended: after `fromResponse` has accepted a buffer with payload `p`, every scalar
16-bit accessor of type `double` returns the `double` product of its scale literal (`0.1` or
`0.01`) and the big-endian value `raw = (p[o] << 8) | p[o+1]` at the payload offset
`o = 2 * (r - 59)` of its register `r`, a value that differs from the exact `raw/10` or
`raw/100` by at most the fraction `2^-52` of it: `acDayEnergy()` at register 60 (offset 2,
`0.1`), `acVoltage()` at register 73 (offset 28, `0.1`), `acCurrent()` at register 76
(offset 34, `0.1`), `acFrequency()` at register 79 (offset 40, `0.01`), `temperature()` at
register 90 (offset 62, `0.01`); `uptime()` returns the value at register 62 (offset 6)
itself and `status()` the low byte `p[1]` of register 59; the raw value `0x0964` = 2404 with
the scale `0.1` gives the double nearest to 240.4, 8458323050155213 / 2^45. -/
theorem scalar_accessors (self obj : DeyeMicroInvModbusRegs) (data : List Nat) (n : Nat)
    (hacc : fromResponse self data n = some (true, obj)) :
    (obj.acDayEnergy = fmul double_0_1 (((payloadByte data 2 <<< 8) ||| payloadByte data 3 : ℕ) : ℚ) ∧
     |obj.acDayEnergy - (((payloadByte data 2 <<< 8) ||| payloadByte data 3 : ℕ) : ℚ) / 10| ≤
      (((payloadByte data 2 <<< 8) ||| payloadByte data 3 : ℕ) : ℚ) / 10 / 2 ^ 52) ∧
    obj.uptime = ((payloadByte data 6 <<< 8) ||| payloadByte data 7) ∧
    (obj.acVoltage = fmul double_0_1 (((payloadByte data 28 <<< 8) ||| payloadByte data 29 : ℕ) : ℚ) ∧
     |obj.acVoltage - (((payloadByte data 28 <<< 8) ||| payloadByte data 29 : ℕ) : ℚ) / 10| ≤
      (((payloadByte data 28 <<< 8) ||| payloadByte data 29 : ℕ) : ℚ) / 10 / 2 ^ 52) ∧
    (obj.acCurrent = fmul double_0_1 (((payloadByte data 34 <<< 8) ||| payloadByte data 35 : ℕ) : ℚ) ∧
     |obj.acCurrent - (((payloadByte data 34 <<< 8) ||| payloadByte data 35 : ℕ) : ℚ) / 10| ≤
      (((payloadByte data 34 <<< 8) ||| payloadByte data 35 : ℕ) : ℚ) / 10 / 2 ^ 52) ∧
    (obj.acFrequency = fmul double_0_01 (((payloadByte data 40 <<< 8) ||| payloadByte data 41 : ℕ) : ℚ) ∧
     |obj.acFrequency - (((payloadByte data 40 <<< 8) ||| payloadByte data 41 : ℕ) : ℚ) / 100| ≤
      (((payloadByte data 40 <<< 8) ||| payloadByte data 41 : ℕ) : ℚ) / 100 / 2 ^ 52) ∧
    (obj.temperature = fmul double_0_01 (((payloadByte data 62 <<< 8) ||| payloadByte data 63 : ℕ) : ℚ) ∧
     |obj.temperature - (((payloadByte data 62 <<< 8) ||| payloadByte data 63 : ℕ) : ℚ) / 100| ≤
      (((payloadByte data 62 <<< 8) ||| payloadByte data 63 : ℕ) : ℚ) / 100 / 2 ^ 52) ∧
    obj.status = payloadByte data 1 ∧
    (payloadByte data 28 = 0x09 → payloadByte data 29 = 0x64 →
      2404 = 0x0964 ∧ obj.acVoltage_val = 2404 ∧
      obj.acVoltage = roundBinary64 (2404 / 10) ∧
      obj.acVoltage = 8458323050155213 / 2 ^ 45) := by
  refine ⟨?_, ?_, ?_, ?_, ?_, ?_, ?_, ?_⟩
  · have e : obj.acDayEnergy = fmul double_0_1 (((payloadByte data 2 <<< 8) ||| payloadByte data 3 : ℕ) : ℚ) := by
      show fmul double_0_1 (((obj.byte 2 0 <<< 8) ||| obj.byte 2 1 : ℕ) : ℚ) = _
      rw [be16_of_true hacc 2 (by decide)]
    refine ⟨e, ?_⟩
    rw [e]
    exact fmul_0_1_error _
  · exact be16_of_true hacc 6 (by decide)
  · have e : obj.acVoltage = fmul double_0_1 (((payloadByte data 28 <<< 8) ||| payloadByte data 29 : ℕ) : ℚ) := by
      show fmul double_0_1 (((obj.byte 28 0 <<< 8) ||| obj.byte 28 1 : ℕ) : ℚ) = _
      rw [be16_of_true hacc 28 (by decide)]
    refine ⟨e, ?_⟩
    rw [e]
    exact fmul_0_1_error _
  · have e : obj.acCurrent = fmul double_0_1 (((payloadByte data 34 <<< 8) ||| payloadByte data 35 : ℕ) : ℚ) := by
      show fmul double_0_1 (((obj.byte 34 0 <<< 8) ||| obj.byte 34 1 : ℕ) : ℚ) = _
      rw [be16_of_true hacc 34 (by decide)]
    refine ⟨e, ?_⟩
    rw [e]
    exact fmul_0_1_error _
  · have e : obj.acFrequency = fmul double_0_01 (((payloadByte data 40 <<< 8) ||| payloadByte data 41 : ℕ) : ℚ) := by
      show fmul double_0_01 (((obj.byte 40 0 <<< 8) ||| obj.byte 40 1 : ℕ) : ℚ) = _
      rw [be16_of_true hacc 40 (by decide)]
    refine ⟨e, ?_⟩
    rw [e]
    exact fmul_0_01_error _
  · have e : obj.temperature = fmul double_0_01 (((payloadByte data 62 <<< 8) ||| payloadByte data 63 : ℕ) : ℚ) := by
      show fmul double_0_01 (((obj.byte 62 0 <<< 8) ||| obj.byte 62 1 : ℕ) : ℚ) = _
      rw [be16_of_true hacc 62 (by decide)]
    refine ⟨e, ?_⟩
    rw [e]
    exact fmul_0_01_error _
  · exact byte_of_true hacc 0 1 (by decide)
  · intro h28 h29
    have e : (obj.byte 28 0 <<< 8) ||| obj.byte 28 1 = _ := be16_of_true hacc 28 (by decide)
    rw [h28, h29] at e
    have ev : obj.acVoltage_val = 2404 := e
    have ed : fmul double_0_1 ((2404 : ℕ) : ℚ) = 8458323050155213 / 2 ^ 45 := by decide!
    have er : roundBinary64 (2404 / 10) = 8458323050155213 / 2 ^ 45 := by decide!
    have ea : obj.acVoltage = 8458323050155213 / 2 ^ 45 := by
      show fmul double_0_1 (obj.acVoltage_val : ℚ) = _
      rw [ev, ed]
    exact ⟨by decide, ev, by rw [ea, er], ea⟩

set_option maxRecDepth 8000 in
/-- Witness for C11 as amended: the response `response240V`, whose payload bytes 28..29 are
`09 64`. -/
theorem scalar_accessors_witness :
    ∃ obj, fromResponse zeroRegs response240V 148 = some (true, obj) ∧
      obj.acVoltage = 8458323050155213 / 2 ^ 45 :=
  ⟨_, fromResponse_accepts zeroRegs response240V 148 (by decide) (by decide) (by decide)
      (by decide) (by decide!),
    ((scalar_accessors zeroRegs _ response240V 148
      (fromResponse_accepts zeroRegs response240V 148 (by decide) (by decide) (by decide)
        (by decide) (by decide!))).2.2.2.2.2.2.2
      (by decide) (by decide)).2.2.2⟩

set_option maxRecDepth 8000 in
/-- C12 fails as stated: on the accepted response `responseRaw3` (raw values 3 for the voltage
and the current of PV1) `pvVoltage(0)` and `pvCurrent(0)` return the double
1351079888211149 / 2^52 (0.30000000000000004), not 3/10, and `pvPower(0)` returns the double
1621295865853379 / 2^54 (0.09000000000000002), not the exact product of the two. -/
theorem pvPower_not_exact_product :
    (fromResponse zeroRegs responseRaw3 148).map
        (fun r => (r.1, r.2.pvVoltage 0, r.2.pvCurrent 0, r.2.pvPower 0)) =
      some (true, 1351079888211149 / 2 ^ 52, 1351079888211149 / 2 ^ 52,
        1621295865853379 / 2 ^ 54) ∧
    (1351079888211149 / 2 ^ 52 : ℚ) ≠ 3 / 10 ∧
    (1621295865853379 / 2 ^ 54 : ℚ) ≠
      (1351079888211149 / 2 ^ 52) * (1351079888211149 / 2 ^ 52) := by
  decide!

/-- C12 as amended: after `fromResponse` has accepted a buffer, for every string index
`pv < 4`, `pvVoltage(pv)` is the `double` product `0.1 * raw` of the big-endian 16-bit value
at payload offset `100 + 4*pv` (register `109 + 2*pv`), `pvCurrent(pv)` the one of the value
at offset `102 + 4*pv` (register `110 + 2*pv`), `pvDayEnergy(pv)` the one of the value at
offset `12 + 2*pv` (register `65 + pv`), each within the fraction `2^-52` of `raw/10`, and
`pvPower(pv)` is the `double` product of `pvVoltage(pv)` and `pvCurrent(pv)`, within the
fraction `2^-53` of their exact product. -/
theorem pv_accessors (self obj : DeyeMicroInvModbusRegs) (data : List Nat) (n pv : Nat)
    (hacc : fromResponse self data n = some (true, obj)) (hpv : pv < 4) :
    (obj.pvVoltage pv = fmul double_0_1 (((payloadByte data (100 + 4 * pv) <<< 8) ||| payloadByte data (100 + 4 * pv + 1) : ℕ) : ℚ) ∧
     |obj.pvVoltage pv - (((payloadByte data (100 + 4 * pv) <<< 8) ||| payloadByte data (100 + 4 * pv + 1) : ℕ) : ℚ) / 10| ≤
      (((payloadByte data (100 + 4 * pv) <<< 8) ||| payloadByte data (100 + 4 * pv + 1) : ℕ) : ℚ) / 10 / 2 ^ 52) ∧
    (obj.pvCurrent pv = fmul double_0_1 (((payloadByte data (102 + 4 * pv) <<< 8) ||| payloadByte data (102 + 4 * pv + 1) : ℕ) : ℚ) ∧
     |obj.pvCurrent pv - (((payloadByte data (102 + 4 * pv) <<< 8) ||| payloadByte data (102 + 4 * pv + 1) : ℕ) : ℚ) / 10| ≤
      (((payloadByte data (102 + 4 * pv) <<< 8) ||| payloadByte data (102 + 4 * pv + 1) : ℕ) : ℚ) / 10 / 2 ^ 52) ∧
    (obj.pvDayEnergy pv = fmul double_0_1 (((payloadByte data (12 + 2 * pv) <<< 8) ||| payloadByte data (12 + 2 * pv + 1) : ℕ) : ℚ) ∧
     |obj.pvDayEnergy pv - (((payloadByte data (12 + 2 * pv) <<< 8) ||| payloadByte data (12 + 2 * pv + 1) : ℕ) : ℚ) / 10| ≤
      (((payloadByte data (12 + 2 * pv) <<< 8) ||| payloadByte data (12 + 2 * pv + 1) : ℕ) : ℚ) / 10 / 2 ^ 52) ∧
    obj.pvPower pv = fmul (obj.pvVoltage pv) (obj.pvCurrent pv) ∧
    |obj.pvPower pv - obj.pvVoltage pv * obj.pvCurrent pv| ≤
      obj.pvVoltage pv * obj.pvCurrent pv / 2 ^ 53 ∧
    2 * (109 + 2 * pv - 59) = 100 + 4 * pv ∧
    2 * (110 + 2 * pv - 59) = 102 + 4 * pv ∧
    2 * (65 + pv - 59) = 12 + 2 * pv := by
  refine ⟨?_, ?_, ?_, rfl, ?_, by omega, by omega, by omega⟩
  · have e : obj.pvVoltage pv = fmul double_0_1 (((payloadByte data (100 + 4 * pv) <<< 8) ||| payloadByte data (100 + 4 * pv + 1) : ℕ) : ℚ) := by
      show fmul double_0_1
        (((obj.byte (100 + 4 * pv) 0 <<< 8) ||| obj.byte (100 + 4 * pv) 1 : ℕ) : ℚ) = _
      rw [be16_of_true hacc (100 + 4 * pv) (by omega)]
    refine ⟨e, ?_⟩
    rw [e]
    exact fmul_0_1_error _
  · have e : obj.pvCurrent pv = fmul double_0_1 (((payloadByte data (102 + 4 * pv) <<< 8) ||| payloadByte data (102 + 4 * pv + 1) : ℕ) : ℚ) := by
      show fmul double_0_1
        (((obj.byte (102 + 4 * pv) 0 <<< 8) ||| obj.byte (102 + 4 * pv) 1 : ℕ) : ℚ) = _
      rw [be16_of_true hacc (102 + 4 * pv) (by omega)]
    refine ⟨e, ?_⟩
    rw [e]
    exact fmul_0_1_error _
  · have e : obj.pvDayEnergy pv = fmul double_0_1 (((payloadByte data (12 + 2 * pv) <<< 8) ||| payloadByte data (12 + 2 * pv + 1) : ℕ) : ℚ) := by
      show fmul double_0_1
        (((obj.byte (12 + 2 * pv) 0 <<< 8) ||| obj.byte (12 + 2 * pv) 1 : ℕ) : ℚ) = _
      rw [be16_of_true hacc (12 + 2 * pv) (by omega)]
    refine ⟨e, ?_⟩
    rw [e]
    exact fmul_0_1_error _
  · exact fmul_error _ _ (fmul_nonneg _ _) (fmul_nonneg _ _)

set_option maxRecDepth 8000 in
/-- Witness for C12 as amended: the sample response and the second string (`pv = 1`), whose
raw voltage is 271. -/
theorem pv_accessors_witness :
    ∃ obj, fromResponse zeroRegs response 148 = some (true, obj) ∧
      obj.pvVoltage 1 =
        fmul double_0_1
          (((payloadByte response (100 + 4 * 1) <<< 8) |||
            payloadByte response (100 + 4 * 1 + 1) : ℕ) : ℚ) ∧
      obj.pvVoltage_val 1 = 271 :=
  ⟨_, fromResponse_response zeroRegs,
    (pv_accessors zeroRegs _ response 148 1 (fromResponse_response zeroRegs) (by decide)).1.1,
    by decide!⟩

/-- C13: for every second count `s`, `secondsToDHMS` renders `D = s div 86400`,
`H = (s div 3600) mod 24`, `M = (s div 60) mod 60`, `S = s mod 60`, which satisfy
`D*86400 + H*3600 + M*60 + S = s`, `H < 24`, `M < 60`, `S < 60`; and `secondsToHMS` renders
`s div 3600`, `M`, `S`, which satisfy `(s div 3600)*3600 + M*60 + S = s`. -/
theorem duration_numbers (s : Nat) :
    secondsToDHMS_args s = (s / 86400, (s / 3600) % 24, (s / 60) % 60, s % 60) ∧
    secondsToDHMS s =
      String.mk (fmt_u (s / 86400) ++ " Days, ".toList ++ fmt_u ((s / 3600) % 24) ++
        " Hours, ".toList ++ fmt_u ((s / 60) % 60) ++ " Minutes, ".toList ++ fmt_u (s % 60) ++
        " Seconds".toList) ∧
    (s / 86400) * 86400 + ((s / 3600) % 24) * 3600 + ((s / 60) % 60) * 60 + s % 60 = s ∧
    (s / 3600) % 24 < 24 ∧ (s / 60) % 60 < 60 ∧ s % 60 < 60 ∧
    secondsToHMS_args s = (s / 3600, (s / 60) % 60, s % 60) ∧
    secondsToHMS s =
      String.mk (fmt_02u (s / 3600) ++ ':' :: fmt_02u ((s / 60) % 60) ++ ':' :: fmt_02u (s % 60)) ∧
    (s / 3600) * 3600 + ((s / 60) % 60) * 60 + s % 60 = s := by
  have hd : s / 3600 / 24 = s / 86400 := by
    rw [Nat.div_div_eq_div_mul]
  have ha : secondsToDHMS_args s = (s / 86400, (s / 3600) % 24, (s / 60) % 60, s % 60) := by
    show (s / 3600 / 24, (s / 3600) % 24, (s / 60) % 60, s % 60) = _
    rw [hd]
  refine ⟨ha, ?_, by omega, by omega, by omega, by omega, rfl, rfl, by omega⟩
  unfold secondsToDHMS
  rw [ha]

/-- C14: if `fromResponse` accepts a buffer starting from one object state, it accepts it
starting from any other state and leaves the very same object (serial number, operating
seconds and register bytes); in particular decoding the buffer a second time, on the object
just decoded, gives the same object again. -/
theorem fromResponse_deterministic (self1 self2 obj : DeyeMicroInvModbusRegs)
    (data : List Nat) (n : Nat) (hacc : fromResponse self1 data n = some (true, obj)) :
    fromResponse self2 data n = some (true, obj) ∧
    fromResponse obj data n = some (true, obj) :=
  ⟨fromResponse_true_prior hacc self2, fromResponse_true_prior hacc obj⟩

set_option maxRecDepth 8000 in
/-- Witness for C14: the sample response decoded into a zeroed object and into an object
holding other values. -/
theorem fromResponse_deterministic_witness :
    ∃ obj, fromResponse zeroRegs response 148 = some (true, obj) ∧
      fromResponse usedRegs response 148 = some (true, obj) ∧
      fromResponse obj response 148 = some (true, obj) :=
  ⟨_, fromResponse_response zeroRegs,
    fromResponse_deterministic zeroRegs usedRegs _ response 148 (fromResponse_response zeroRegs)⟩

/-- C15: for every serial number `s`, the CRC bytes stored at offsets 32 and 33 of the request
frame are `0xB4` and `0x14`, the bytes written in `requestTemplate`, because
`crc16(0xFFFF, [01, 03, 00, 3B, 00, 3A]) = 0x14B4`. -/
theorem mainRequest_crc_bytes (s : Nat) :
    (mainRequest s).getD 32 0 = 0xB4 ∧
    (mainRequest s).getD 33 0 = 0x14 ∧
    crc_calc_crc16_reflected 0xFFFF [0x01, 0x03, 0x00, 0x3B, 0x00, 0x3A] = 0x14B4 ∧
    requestTemplate.getD 32 0 = 0xB4 ∧ requestTemplate.getD 33 0 = 0x14 := by
  rw [mainRequest_eq]
  generalize s % 256 = b0
  generalize s >>> 8 % 256 = b1
  generalize s >>> 16 % 256 = b2
  generalize s >>> 24 % 256 = b3
  generalize sumBytes _ = sum
  exact ⟨rfl, rfl, crc_request, rfl, rfl⟩

/-- C16: when `fromResponse` returns `false`, the object is exactly as it was before the call
(serial number, operating seconds and every register byte). -/
theorem fromResponse_false_unchanged (self obj : DeyeMicroInvModbusRegs) (data : List Nat)
    (n : Nat) (hrej : fromResponse self data n = some (false, obj)) : obj = self :=
  fromResponse_false_inv hrej

set_option maxRecDepth 8000 in
/-- Witness for C16: the sample response with a wrong end byte, offered to an object that
holds values. -/
theorem fromResponse_false_unchanged_witness :
    fromResponse usedRegs (response.set 147 0x16) 148 = some (false, usedRegs) ∧
    usedRegs = usedRegs :=
  ⟨by decide!,
    fromResponse_false_unchanged usedRegs usedRegs (response.set 147 0x16) 148 (by decide!)⟩

set_option maxRecDepth 8000 in
/-- C17, the code at a concrete input: `fromResponse` accepts `response59`, whose
payload-length byte is 118, so the copy to `_status` has 118 bytes, two more than the 116
bytes of the register members. -/
theorem fromResponse_accepts_59_registers :
    (fromResponse zeroRegs response59 150).map Prod.fst = some true ∧
    response59.getD 27 0 = 118 ∧
    ((response59.drop 28).take (response59.getD 27 0)).length = 118 ∧
    regsSize = 116 ∧ regsSize < 118 := by
  decide!

/-- C18: after `fromResponse` has accepted a buffer with payload length `L = data[27]`, every
byte of the register area at an offset `k >= L` is zero, whatever the object held before and
whatever bytes follow the payload in the buffer, so every accessor whose bytes all lie at
offsets `>= L` returns 0: each accessor is listed with the offset of its first byte; with
`L <= 112` both `pvVoltage(3)` and `pvCurrent(3)` are 0. -/
theorem registers_past_payload_zero (self obj : DeyeMicroInvModbusRegs) (data : List Nat)
    (n : Nat) (hacc : fromResponse self data n = some (true, obj)) (hL : data.getD 27 0 < 116) :
    (∀ k, data.getD 27 0 ≤ k → k < 116 → obj.regs.getD k 0 = 0) ∧
    (data.getD 27 0 ≤ 1 → obj.status = 0) ∧
    (data.getD 27 0 ≤ 2 → obj.acDayEnergy = 0) ∧
    (data.getD 27 0 ≤ 6 → obj.uptime = 0) ∧
    (data.getD 27 0 ≤ 8 → obj.acTotalEnergy = 0) ∧
    (∀ pv, pv < 4 → data.getD 27 0 ≤ 12 + 2 * pv → obj.pvDayEnergy pv = 0) ∧
    (data.getD 27 0 ≤ 20 → obj.pvTotalEnergy 0 = 0) ∧
    (data.getD 27 0 ≤ 24 → obj.pvTotalEnergy 1 = 0) ∧
    (data.getD 27 0 ≤ 28 → obj.acVoltage = 0) ∧
    (data.getD 27 0 ≤ 30 → obj.pvTotalEnergy 2 = 0) ∧
    (data.getD 27 0 ≤ 34 → obj.acCurrent = 0) ∧
    (data.getD 27 0 ≤ 36 → obj.pvTotalEnergy 3 = 0) ∧
    (data.getD 27 0 ≤ 40 → obj.acFrequency = 0) ∧
    (data.getD 27 0 ≤ 42 → obj.operatingPower = 0) ∧
    (data.getD 27 0 ≤ 54 → obj.acPower = 0) ∧
    (data.getD 27 0 ≤ 62 → obj.temperature = 0) ∧
    (∀ pv, pv < 4 → data.getD 27 0 ≤ 100 + 4 * pv → obj.pvVoltage pv = 0) ∧
    (∀ pv, pv < 4 → data.getD 27 0 ≤ 102 + 4 * pv → obj.pvCurrent pv = 0) ∧
    (data.getD 27 0 ≤ 112 → obj.pvVoltage 3 = 0 ∧ obj.pvCurrent 3 = 0) := by
  have hr : ∀ k, data.getD 27 0 ≤ k → k < 116 → obj.regs.getD k 0 = 0 := by
    intro k hk hk2
    rw [(regs_of_true hacc).2 k hk2, payloadByte, if_neg (Nat.not_lt.mpr hk)]
  have hz : ∀ m i, data.getD 27 0 ≤ m + i → m + i < 116 → obj.byte m i = 0 :=
    fun m i h1 h2 => hr (m + i) h1 h2
  have hv : ∀ pv, pv < 4 → data.getD 27 0 ≤ 100 + 4 * pv → obj.pvVoltage pv = 0 := by
    intro pv hpv h
    show fmul double_0_1
      (((obj.byte (100 + 4 * pv) 0 <<< 8) ||| obj.byte (100 + 4 * pv) 1 : Nat) : ℚ) = 0
    rw [hz _ 0 (by omega) (by omega), hz _ 1 (by omega) (by omega)]
    exact fmul_zero_right _
  have hc : ∀ pv, pv < 4 → data.getD 27 0 ≤ 102 + 4 * pv → obj.pvCurrent pv = 0 := by
    intro pv hpv h
    show fmul double_0_1
      (((obj.byte (102 + 4 * pv) 0 <<< 8) ||| obj.byte (102 + 4 * pv) 1 : Nat) : ℚ) = 0
    rw [hz _ 0 (by omega) (by omega), hz _ 1 (by omega) (by omega)]
    exact fmul_zero_right _
  refine ⟨hr, ?_, ?_, ?_, ?_, ?_, ?_, ?_, ?_, ?_, ?_, ?_, ?_, ?_, ?_, ?_, hv, hc, ?_⟩
  · intro h
    exact hz 0 1 (by omega) (by omega)
  · intro h
    show fmul double_0_1 (((obj.byte 2 0 <<< 8) ||| obj.byte 2 1 : Nat) : ℚ) = 0
    rw [hz _ 0 (by omega) (by omega), hz _ 1 (by omega) (by omega)]
    exact fmul_zero_right _
  · intro h
    show ((obj.byte 6 0 <<< 8) ||| obj.byte 6 1) = 0
    rw [hz _ 0 (by omega) (by omega), hz _ 1 (by omega) (by omega)]
    rfl
  · intro h
    show fmul double_0_1 (((obj.byte 8 2 <<< 24) ||| (obj.byte 8 3 <<< 16) |||
      (obj.byte 8 0 <<< 8) ||| obj.byte 8 1 : Nat) : ℚ) = 0
    rw [hz _ 2 (by omega) (by omega), hz _ 3 (by omega) (by omega),
      hz _ 0 (by omega) (by omega), hz _ 1 (by omega) (by omega)]
    exact fmul_zero_right _
  · intro pv hpv h
    show fmul double_0_1 (((obj.byte (12 + 2 * pv) 0 <<< 8) ||| obj.byte (12 + 2 * pv) 1 : Nat) : ℚ) = 0
    rw [hz _ 0 (by omega) (by omega), hz _ 1 (by omega) (by omega)]
    exact fmul_zero_right _
  · intro h
    show fmul double_0_1 (((obj.byte 20 2 <<< 24) ||| (obj.byte 20 3 <<< 16) |||
      (obj.byte 20 0 <<< 8) ||| obj.byte 20 1 : Nat) : ℚ) = 0
    rw [hz _ 2 (by omega) (by omega), hz _ 3 (by omega) (by omega),
      hz _ 0 (by omega) (by omega), hz _ 1 (by omega) (by omega)]
    exact fmul_zero_right _
  · intro h
    show fmul double_0_1 (((obj.byte 24 2 <<< 24) ||| (obj.byte 24 3 <<< 16) |||
      (obj.byte 24 0 <<< 8) ||| obj.byte 24 1 : Nat) : ℚ) = 0
    rw [hz _ 2 (by omega) (by omega), hz _ 3 (by omega) (by omega),
      hz _ 0 (by omega) (by omega), hz _ 1 (by omega) (by omega)]
    exact fmul_zero_right _
  · intro h
    show fmul double_0_1 (((obj.byte 28 0 <<< 8) ||| obj.byte 28 1 : Nat) : ℚ) = 0
    rw [hz _ 0 (by omega) (by omega), hz _ 1 (by omega) (by omega)]
    exact fmul_zero_right _
  · intro h
    show fmul double_0_1 (((obj.byte 30 2 <<< 24) ||| (obj.byte 30 3 <<< 16) |||
      (obj.byte 30 0 <<< 8) ||| obj.byte 30 1 : Nat) : ℚ) = 0
    rw [hz _ 2 (by omega) (by omega), hz _ 3 (by omega) (by omega),
      hz _ 0 (by omega) (by omega), hz _ 1 (by omega) (by omega)]
    exact fmul_zero_right _
  · intro h
    show fmul double_0_1 (((obj.byte 34 0 <<< 8) ||| obj.byte 34 1 : Nat) : ℚ) = 0
    rw [hz _ 0 (by omega) (by omega), hz _ 1 (by omega) (by omega)]
    exact fmul_zero_right _
  · intro h
    show fmul double_0_1 (((obj.byte 36 2 <<< 24) ||| (obj.byte 36 3 <<< 16) |||
      (obj.byte 36 0 <<< 8) ||| obj.byte 36 1 : Nat) : ℚ) = 0
    rw [hz _ 2 (by omega) (by omega), hz _ 3 (by omega) (by omega),
      hz _ 0 (by omega) (by omega), hz _ 1 (by omega) (by omega)]
    exact fmul_zero_right _
  · intro h
    show fmul double_0_01 (((obj.byte 40 0 <<< 8) ||| obj.byte 40 1 : Nat) : ℚ) = 0
    rw [hz _ 0 (by omega) (by omega), hz _ 1 (by omega) (by omega)]
    exact fmul_zero_right _
  · intro h
    show ((obj.byte 42 0 <<< 8) ||| obj.byte 42 1) = 0
    rw [hz _ 0 (by omega) (by omega), hz _ 1 (by omega) (by omega)]
    rfl
  · intro h
    show ((obj.byte 54 0 <<< 8) ||| obj.byte 54 1) / 10 = 0
    rw [hz _ 0 (by omega) (by omega), hz _ 1 (by omega) (by omega)]
    rfl
  · intro h
    show fmul double_0_01 (((obj.byte 62 0 <<< 8) ||| obj.byte 62 1 : Nat) : ℚ) = 0
    rw [hz _ 0 (by omega) (by omega), hz _ 1 (by omega) (by omega)]
    exact fmul_zero_right _
  · intro h
    exact ⟨hv 3 (by omega) (by omega), hc 3 (by omega) (by omega)⟩

set_option maxRecDepth 8000 in
/-- Witness for C18: the response with 57 registers (`L = 114`); the two bytes that follow
its payload in the buffer are the CRC bytes `b6 6d`, and `pvCurrent(3)`, read from offsets
114..115, is 0. -/
theorem registers_past_payload_zero_witness :
    ∃ obj, fromResponse usedRegs response57 146 = some (true, obj) ∧
      response57.getD (28 + 114) 0 = 0xb6 ∧ response57.getD (28 + 115) 0 = 0x6d ∧
      obj.pvCurrent 3 = 0 :=
  ⟨_, fromResponse_accepts usedRegs response57 146 (by decide) (by decide) (by decide)
      (by decide) (by decide!), by decide, by decide,
    (registers_past_payload_zero usedRegs _ response57 146
      (fromResponse_accepts usedRegs response57 146 (by decide) (by decide) (by decide)
        (by decide) (by decide!)) (by decide)).2.2.2.2.2.2.2.2.2.2.2.2.2.2.2.2.2.1
      3 (by decide) (by decide)⟩

/-- C19: for every 32-bit second count `s`, the text of `secondsToHMS` has at most 15
characters and the text of `secondsToDHMS` at most 47, so with the terminating NUL they fit
the declared buffers of 16 and 48 bytes; for `s < 360000` the text of `secondsToHMS` is the 8
characters `HH:MM:SS`, each field two decimal digits. -/
theorem duration_text_fits (s : Nat) (hs : s < 2 ^ 32) :
    (secondsToHMS s).length ≤ 15 ∧ (secondsToHMS s).length + 1 ≤ 16 ∧
    (secondsToDHMS s).length ≤ 47 ∧ (secondsToDHMS s).length + 1 ≤ 48 ∧
    (s < 360000 →
      (secondsToHMS s).length = 8 ∧
      secondsToHMS s =
        String.mk
          [Char.ofNat (48 + s / 3600 / 10), Char.ofNat (48 + s / 3600 % 10), ':',
           Char.ofNat (48 + s / 60 % 60 / 10), Char.ofNat (48 + s / 60 % 60 % 10), ':',
           Char.ofNat (48 + s % 60 / 10), Char.ofNat (48 + s % 60 % 10)]) := by
  have hm : (fmt_02u (s / 60 % 60)).length ≤ 2 := length_fmt_02u _ 2 (by omega) (by omega)
  have hsec : (fmt_02u (s % 60)).length ≤ 2 := length_fmt_02u _ 2 (by omega) (by omega)
  have hh : (fmt_02u (s / 3600)).length ≤ 7 := length_fmt_02u _ 7 (by omega) (by omega)
  have dd : (fmt_u (s / 3600 / 24)).length ≤ 5 := length_fmt_u _ 5 (by omega) (by omega)
  have dh : (fmt_u (s / 3600 % 24)).length ≤ 2 := length_fmt_u _ 2 (by omega) (by omega)
  have dm : (fmt_u (s / 60 % 60)).length ≤ 2 := length_fmt_u _ 2 (by omega) (by omega)
  have ds : (fmt_u (s % 60)).length ≤ 2 := length_fmt_u _ 2 (by omega) (by omega)
  have e1 : (" Days, ".toList).length = 7 := rfl
  have e2 : (" Hours, ".toList).length = 8 := rfl
  have e3 : (" Minutes, ".toList).length = 10 := rfl
  have e4 : (" Seconds".toList).length = 8 := rfl
  have lh : (secondsToHMS s).length =
      (fmt_02u (s / 3600)).length + 1 + (fmt_02u (s / 60 % 60)).length + 1 +
        (fmt_02u (s % 60)).length := by
    show (fmt_02u (s / 3600) ++ ':' :: fmt_02u (s / 60 % 60) ++ ':' :: fmt_02u (s % 60)).length
      = _
    simp only [List.length_append, List.length_cons]
    omega
  have ld : (secondsToDHMS s).length =
      (fmt_u (s / 3600 / 24)).length + 7 + (fmt_u (s / 3600 % 24)).length + 8 +
        (fmt_u (s / 60 % 60)).length + 10 + (fmt_u (s % 60)).length + 8 := by
    show (fmt_u (s / 3600 / 24) ++ " Days, ".toList ++ fmt_u (s / 3600 % 24) ++
      " Hours, ".toList ++ fmt_u (s / 60 % 60) ++ " Minutes, ".toList ++ fmt_u (s % 60) ++
      " Seconds".toList).length = _
    simp only [List.length_append, e1, e2, e3, e4]
  refine ⟨by omega, by omega, by omega, by omega, ?_⟩
  intro hlt
  have t : secondsToHMS s =
      String.mk
        [Char.ofNat (48 + s / 3600 / 10), Char.ofNat (48 + s / 3600 % 10), ':',
         Char.ofNat (48 + s / 60 % 60 / 10), Char.ofNat (48 + s / 60 % 60 % 10), ':',
         Char.ofNat (48 + s % 60 / 10), Char.ofNat (48 + s % 60 % 10)] := by
    show String.mk
      (fmt_02u (s / 3600) ++ ':' :: fmt_02u (s / 60 % 60) ++ ':' :: fmt_02u (s % 60)) = _
    rw [fmt_02u_two_digits (s / 3600) (by omega), fmt_02u_two_digits (s / 60 % 60) (by omega),
      fmt_02u_two_digits (s % 60) (by omega)]
    rfl
  refine ⟨?_, t⟩
  rw [t]
  rfl

/-- Witness for C19: the day operating time of the sample response, 10416 s, rendered as
`02:53:36`. -/
theorem duration_text_fits_witness :
    secondsToHMS 10416 = "02:53:36" ∧ (secondsToHMS 10416).length = 8 ∧
    (secondsToDHMS 10416).length + 1 ≤ 48 :=
  ⟨by decide!,
    ((duration_text_fits 10416 (by norm_num)).2.2.2.2 (by norm_num)).1,
    (duration_text_fits 10416 (by norm_num)).2.2.2.1⟩

end Deye
